import Mathlib

/-!
Shallow embedding of the walkingpad repository (wire-protocol codec,
run tracker, history walker, connection retry) and proofs about it.

Machine integers are modelled as `Nat`; `u8`/`u32` wraparound is written
as an explicit `% 256` / `% 4294967296` exactly where the Rust code
performs wrapping arithmetic (`wrapping_add`) or where unchecked
arithmetic wraps in release builds.  Byte sequences are `List Nat`.
-/

namespace WalkingPad

/-- Mirrors `walkingpad_protocol::Error` (src/walkingpad_protocol/src/lib.rs). -/
inductive Error where
  | invalidSpeed : Nat → Error
  | invalidType : Nat → String → Error
  | invalidResponseHeader : Nat → Error
  | invalidResponseFooter : Nat → Error
  | bytesAfterFooter : Error
  | responseTooShort : Error
deriving DecidableEq, Repr

deriving instance DecidableEq for Except

/-- The `&'static str` passed to `Error::InvalidType` for subjects. -/
def typeNameSubject : String := "subject"

/-- The `&'static str` passed to `Error::InvalidType` for modes. -/
def typeNameMode : String := "mode"

/-- The `&'static str` passed to `Error::InvalidType` for sensitivities. -/
def typeNameSensitivity : String := "sensitivity"

/-- The `&'static str` passed to `Error::InvalidType` for units. -/
def typeNameUnits : String := "units"

/-- The `&'static str` passed to `Error::InvalidType` for info flags. -/
def typeNameInfoFlags : String := "InfoFlags"

/-- Mirrors `struct Speed { inner: u8 }`. -/
structure Speed where
  inner : Nat
deriving DecidableEq, Repr

/-- `Speed::MAX`. -/
def Speed.MAX : Nat := 60

/-- Mirrors `Speed::try_from_hm_per_hour`. -/
def Speed.tryFromHmPerHour (value : Nat) : Except Error Speed :=
  if value ≤ Speed.MAX then .ok ⟨value⟩ else .error (.invalidSpeed value)

/-- Mirrors `Speed::from_hm_per_hour` (clamping constructor). -/
def Speed.fromHmPerHour (value : Nat) : Speed :=
  match Speed.tryFromHmPerHour value with
  | .ok speed => speed
  | .error _ => ⟨Speed.MAX⟩

/-- Mirrors `Speed::try_from_km_per_hour`, which computes `value * 10` in `u8`.
The multiplication is unchecked `u8` arithmetic: in release builds it wraps
modulo 256 (in debug builds it panics for `value ≥ 26`); the wrap is made
explicit here. -/
def Speed.tryFromKmPerHour (value : Nat) : Except Error Speed :=
  Speed.tryFromHmPerHour (value * 10 % 256)

/-- Mirrors `Speed::from_km_per_hour`; on error it falls back to
`Speed { inner: Speed::MAX / 10 }`. -/
def Speed.fromKmPerHour (value : Nat) : Speed :=
  match Speed.tryFromKmPerHour value with
  | .ok speed => speed
  | .error _ => ⟨Speed.MAX / 10⟩

/-- `Speed::hm_per_hour`. -/
def Speed.hmPerHour (s : Speed) : Nat := s.inner

/-- `Speed::km_per_hour` (integer division). -/
def Speed.kmPerHour (s : Speed) : Nat := s.inner / 10

/-- Mirrors `impl_op_ex!(+ |a: &Speed, b: &u8| -> Speed { Speed::from_hm_per_hour(a.inner + b) })`.
`a.inner + b` is unchecked `u8` addition: it wraps modulo 256 in release
builds (panics in debug builds); the wrap is made explicit here. -/
def Speed.addU8 (a : Speed) (b : Nat) : Speed :=
  Speed.fromHmPerHour ((a.inner + b) % 256)

/-- Mirrors `Speed + Speed`, which delegates to `Speed + u8` on `b.inner`. -/
def Speed.addSpeed (a b : Speed) : Speed := Speed.addU8 a b.inner

/-- Mirrors `impl_op_ex!(- |a: &Speed, b: &u8| ...)` using `saturating_sub`,
which is exactly truncated `Nat` subtraction. -/
def Speed.subU8 (a : Speed) (b : Nat) : Speed := ⟨a.inner - b⟩

/-- Mirrors `Speed - Speed`, which delegates to `Speed - u8` on `b.inner`. -/
def Speed.subSpeed (a b : Speed) : Speed := Speed.subU8 a b.inner

/-- Mirrors `enum Subject { State = 0xa2, Settings = 0xa6, StoredStats = 0xa7 }`. -/
inductive Subject where
  | state
  | settings
  | storedStats
deriving DecidableEq, Repr

/-- The `u8` discriminant of each `Subject` variant. -/
def Subject.code : Subject → Nat
  | .state => 162
  | .settings => 166
  | .storedStats => 167

/-- Mirrors `TryFrom<u8> for Subject` (via `from_repr`). -/
def Subject.tryFrom (value : Nat) : Except Error Subject :=
  if value = 162 then .ok .state
  else if value = 166 then .ok .settings
  else if value = 167 then .ok .storedStats
  else .error (.invalidType value typeNameSubject)

/-- Mirrors `enum Mode { Auto = 0, Manual = 1, Sleep = 2, Calibration = 4 }`. -/
inductive Mode where
  | auto
  | manual
  | sleep
  | calibration
deriving DecidableEq, Repr

/-- The `u8` discriminant of each `Mode` variant. -/
def Mode.code : Mode → Nat
  | .auto => 0
  | .manual => 1
  | .sleep => 2
  | .calibration => 4

/-- Mirrors `TryFrom<u8> for Mode` (via `from_repr`). -/
def Mode.tryFrom (value : Nat) : Except Error Mode :=
  if value = 0 then .ok .auto
  else if value = 1 then .ok .manual
  else if value = 2 then .ok .sleep
  else if value = 4 then .ok .calibration
  else .error (.invalidType value typeNameMode)

/-- Mirrors `enum Sensitivity { High = 1, Medium = 2, Low = 3 }`. -/
inductive Sensitivity where
  | high
  | medium
  | low
deriving DecidableEq, Repr

/-- The `u8` discriminant of each `Sensitivity` variant. -/
def Sensitivity.code : Sensitivity → Nat
  | .high => 1
  | .medium => 2
  | .low => 3

/-- Mirrors `TryFrom<u8> for Sensitivity` (via `from_repr`). -/
def Sensitivity.tryFrom (value : Nat) : Except Error Sensitivity :=
  if value = 1 then .ok .high
  else if value = 2 then .ok .medium
  else if value = 3 then .ok .low
  else .error (.invalidType value typeNameSensitivity)

/-- Mirrors `enum Units { Metric = 0, Imperial = 1 }`. -/
inductive Units where
  | metric
  | imperial
deriving DecidableEq, Repr

/-- The `u8` discriminant of each `Units` variant. -/
def Units.code : Units → Nat
  | .metric => 0
  | .imperial => 1

/-- Mirrors `TryFrom<u8> for Units` (via `from_repr`). -/
def Units.tryFrom (value : Nat) : Except Error Units :=
  if value = 0 then .ok .metric
  else if value = 1 then .ok .imperial
  else .error (.invalidType value typeNameUnits)

/-- Mirrors `bitflags! InfoFlags: u8` with flags {1,2,4,8,16}. -/
structure InfoFlags where
  bits : Nat
deriving DecidableEq, Repr

/-- Mirrors `TryFrom<u8> for InfoFlags` via `InfoFlags::from_bits`, which
accepts exactly the bytes with no bits outside `0b11111`. -/
def InfoFlags.tryFrom (value : Nat) : Except Error InfoFlags :=
  if value < 32 then .ok ⟨value⟩ else .error (.invalidType value typeNameInfoFlags)

/-- `MESSAGE_FOOTER`. -/
def MESSAGE_FOOTER : Nat := 253

/-- `REQUEST_HEADER`. -/
def REQUEST_HEADER : Nat := 247

/-- `u32::to_be_bytes` on a value already reduced modulo `2^32`. -/
def u32ToBeBytes (value : Nat) : List Nat :=
  [value / 16777216 % 256, value / 65536 % 256, value / 256 % 256, value % 256]

/-- Mirrors `struct RawRequest<N>`; the const-generic byte array becomes a list. -/
structure RawRequest where
  header : Nat
  subject : Nat
  requestType : Nat
  param : List Nat
  crc : Nat
  footer : Nat
deriving DecidableEq, Repr

/-- Mirrors `RawRequest::new`: the crc starts at 0 and accumulates the subject
byte, the request-type byte and each parameter byte with `u8::wrapping_add`. -/
def RawRequest.new (requestType : Nat) (subject : Subject) (param : List Nat) :
    RawRequest :=
  let crc := List.foldl (fun c b => (c + b) % 256) 0 (subject.code :: requestType :: param)
  { header := REQUEST_HEADER
    subject := subject.code
    requestType := requestType
    param := param
    crc := crc
    footer := MESSAGE_FOOTER }

/-- Mirrors `RawRequest::as_bytes`: the `repr(C)` field order
`[header, subject, request_type, param.., crc, footer]`. -/
def RawRequest.asBytes (r : RawRequest) : List Nat :=
  r.header :: r.subject :: r.requestType :: (r.param ++ [r.crc, r.footer])

/-- Mirrors `struct Request(Either<RawRequest<1>, RawRequest<4>>)`. -/
inductive Request where
  | ofU8 : RawRequest → Request
  | ofU32 : RawRequest → Request
deriving DecidableEq, Repr

/-- Mirrors `Request::from_u8`. -/
def Request.fromU8 (requestType : Nat) (subject : Subject) (param : Nat) : Request :=
  .ofU8 (RawRequest.new requestType subject [param])

/-- Mirrors `Request::from_u32` (parameter serialized big-endian). -/
def Request.fromU32 (requestType : Nat) (subject : Subject) (param : Nat) : Request :=
  .ofU32 (RawRequest.new requestType subject (u32ToBeBytes param))

/-- Mirrors `Request::as_bytes`. -/
def Request.asBytes : Request → List Nat
  | .ofU8 r => r.asBytes
  | .ofU32 r => r.asBytes

namespace request

/-- Mirrors `request::clear_stats`. -/
def clear_stats : Request := Request.fromU8 170 .storedStats 0

/-- Mirrors `request::start` (`true as u8`). -/
def start : Request := Request.fromU8 4 .state 1

/-- Mirrors `request::stop` (`false as u8`). -/
def stop : Request := Request.fromU8 4 .state 0

namespace get

/-- Mirrors `request::get::state`. -/
def state : Request := Request.fromU8 0 .state 0

/-- Mirrors `request::get::settings`. -/
def settings : Request := Request.fromU32 0 .settings 0

/-- Mirrors `request::get::latest_stored_stats` (sentinel id 255). -/
def latest_stored_stats : Request := Request.fromU8 170 .storedStats 255

/-- Mirrors `request::get::stored_stats`. -/
def stored_stats (id : Nat) : Request := Request.fromU8 170 .storedStats id

end get

namespace set

/-- Mirrors `request::set::speed`. -/
def speed (speed : Speed) : Request := Request.fromU8 1 .state speed.hmPerHour

/-- Mirrors `request::set::mode` (`mode as u8`). -/
def mode (mode : Mode) : Request := Request.fromU8 2 .state mode.code

/-- Mirrors `request::set::calibration_mode` (`enabled as u32`). -/
def calibration_mode (enabled : Bool) : Request :=
  Request.fromU32 2 .settings (cond enabled 1 0)

/-- Mirrors `request::set::max_speed`. -/
def max_speed (speed : Speed) : Request := Request.fromU32 3 .settings speed.hmPerHour

/-- Mirrors `request::set::start_speed`. -/
def start_speed (speed : Speed) : Request := Request.fromU32 4 .settings speed.hmPerHour

/-- Mirrors `request::set::auto_start` (`enabled as u32`). -/
def auto_start (enabled : Bool) : Request :=
  Request.fromU32 5 .settings (cond enabled 1 0)

/-- Mirrors `request::set::sensitivity` (`sensitivity as u32`). -/
def sensitivity (sensitivity : Sensitivity) : Request :=
  Request.fromU32 6 .settings sensitivity.code

/-- Mirrors `request::set::display` (`flags.bits() as u32`). -/
def display (flags : InfoFlags) : Request := Request.fromU32 7 .settings flags.bits

/-- Mirrors `request::set::units` (`units as u32`). -/
def units (units : Units) : Request := Request.fromU32 8 .settings units.code

/-- Mirrors `request::set::locked` (`is_locked as u32`). -/
def locked (is_locked : Bool) : Request :=
  Request.fromU32 9 .settings (cond is_locked 1 0)

end set

end request

/-- `RESPONSE_HEADER`. -/
def RESPONSE_HEADER : Nat := 248

/-- Mirrors `read_u8` (src/walkingpad_protocol/src/response.rs): take the next
byte of the iterator or fail with `ResponseTooShort`.  The iterator is
modelled by threading the remaining byte list. -/
def read_u8 : List Nat → Except Error (Nat × List Nat)
  | [] => .error .responseTooShort
  | b :: bs => .ok (b, bs)

/-- `u32::from_be_bytes([0, b1, b2, b3])`. -/
def u32FromBeBytes0 (b1 b2 b3 : Nat) : Nat := b1 * 65536 + b2 * 256 + b3

/-- The `?` operator of the source: propagate an `Err` early return, feed an
`Ok` value to the rest of the function. -/
def pbind {α β : Type} (x : Except Error α) (k : α → Except Error β) :
    Except Error β :=
  match x with
  | .error e => .error e
  | .ok a => k a

/-- Mirrors `read_u32`: three wire bytes, big-endian, into the low 24 bits. -/
def read_u32 (bs : List Nat) : Except Error (Nat × List Nat) :=
  pbind (read_u8 bs) fun (b1, bs) =>
  pbind (read_u8 bs) fun (b2, bs) =>
  pbind (read_u8 bs) fun (b3, bs) =>
  .ok (u32FromBeBytes0 b1 b2 b3, bs)

/-- Mirrors `to_distance`: `Distance::new::<decameter>(d)` stores `d * 10`
meters in a `u32` (the multiplication wraps modulo `2^32` in release builds;
call sites always pass `d < 2^24`, where no wrap occurs). -/
def to_distance (distance : Nat) : Nat := distance * 10 % 4294967296

/-- Mirrors `enum MotorState`. -/
inductive MotorState where
  | stopped
  | running
  | starting
  | unknown : Nat → MotorState
deriving DecidableEq, Repr

/-- Mirrors `From<u8> for MotorState`: `{0b0000, 0b0001, 0b1001}` plus the
`Unknown` catch-all. -/
def MotorState.ofNat (value : Nat) : MotorState :=
  if value = 0 then .stopped
  else if value = 1 then .running
  else if value = 9 then .starting
  else .unknown value

/-- Mirrors `struct State` (live-state payload). -/
structure State where
  motor_state : MotorState
  speed : Speed
  mode : Mode
  run_time : Nat
  distance : Nat
  nb_steps : Nat
  unknown : Nat × Nat × Nat × Nat
deriving DecidableEq, Repr

/-- Mirrors `State::parse`: the field-by-field reader, with the `?` early
returns written via `pbind`. -/
def State.parse (bs : List Nat) : Except Error (State × List Nat) :=
  pbind (read_u8 bs) fun (m, bs) =>
  pbind (read_u8 bs) fun (sb, bs) =>
  pbind (Speed.tryFromHmPerHour sb) fun speed =>
  pbind (read_u8 bs) fun (mb, bs) =>
  pbind (Mode.tryFrom mb) fun mode =>
  pbind (read_u32 bs) fun (run_time, bs) =>
  pbind (read_u32 bs) fun (dist, bs) =>
  pbind (read_u32 bs) fun (nb_steps, bs) =>
  pbind (read_u8 bs) fun (u1, bs) =>
  pbind (read_u8 bs) fun (u2, bs) =>
  pbind (read_u8 bs) fun (u3, bs) =>
  pbind (read_u8 bs) fun (u4, bs) =>
  .ok ({ motor_state := MotorState.ofNat m
         speed := speed
         mode := mode
         run_time := run_time
         distance := to_distance dist
         nb_steps := nb_steps
         unknown := (u1, u2, u3, u4) }, bs)

/-- Mirrors `struct Settings`. -/
structure Settings where
  goal_type : Nat
  goal : Nat
  calibration : Nat
  max_speed : Speed
  start_speed : Speed
  start_mode : Mode
  sensitivity : Sensitivity
  display : InfoFlags
  is_locked : Bool
  units : Units
  unknown : Nat × Nat × Nat × Nat
deriving DecidableEq, Repr

/-- Mirrors `Settings::parse`. -/
def Settings.parse (bs : List Nat) : Except Error (Settings × List Nat) :=
  pbind (read_u8 bs) fun (goal_type, bs) =>
  pbind (read_u32 bs) fun (goal, bs) =>
  pbind (read_u8 bs) fun (calibration, bs) =>
  pbind (read_u8 bs) fun (msb, bs) =>
  pbind (Speed.tryFromHmPerHour msb) fun max_speed =>
  pbind (read_u8 bs) fun (ssb, bs) =>
  pbind (Speed.tryFromHmPerHour ssb) fun start_speed =>
  pbind (read_u8 bs) fun (smb, bs) =>
  pbind (Mode.tryFrom smb) fun start_mode =>
  pbind (read_u8 bs) fun (senb, bs) =>
  pbind (Sensitivity.tryFrom senb) fun sensitivity =>
  pbind (read_u8 bs) fun (db, bs) =>
  pbind (InfoFlags.tryFrom db) fun display =>
  pbind (read_u8 bs) fun (lb, bs) =>
  pbind (read_u8 bs) fun (ub, bs) =>
  pbind (Units.tryFrom ub) fun units =>
  pbind (read_u8 bs) fun (u1, bs) =>
  pbind (read_u8 bs) fun (u2, bs) =>
  pbind (read_u8 bs) fun (u3, bs) =>
  pbind (read_u8 bs) fun (u4, bs) =>
  .ok ({ goal_type := goal_type
         goal := goal
         calibration := calibration
         max_speed := max_speed
         start_speed := start_speed
         start_mode := start_mode
         sensitivity := sensitivity
         display := display
         is_locked := lb ≠ 0
         units := units
         unknown := (u1, u2, u3, u4) }, bs)

/-- Mirrors `struct StoredStats` (stored-run payload); `duration` is kept in
whole seconds as read from the wire. -/
structure StoredStats where
  current_time : Nat
  start_time : Nat
  duration : Nat
  distance : Nat
  nb_steps : Nat
  next_id : Option Nat
deriving DecidableEq, Repr

/-- Mirrors `StoredStats::parse`; a `next_id` byte of 0 decodes to `None`. -/
def StoredStats.parse (bs : List Nat) : Except Error (StoredStats × List Nat) :=
  pbind (read_u32 bs) fun (current_time, bs) =>
  pbind (read_u32 bs) fun (start_time, bs) =>
  pbind (read_u32 bs) fun (duration, bs) =>
  pbind (read_u32 bs) fun (dist, bs) =>
  pbind (read_u32 bs) fun (nb_steps, bs) =>
  pbind (read_u8 bs) fun (n, bs) =>
  .ok ({ current_time := current_time
         start_time := start_time
         duration := duration
         distance := to_distance dist
         nb_steps := nb_steps
         next_id := if n = 0 then none else some n }, bs)

/-- Mirrors `enum Response`. -/
inductive Response where
  | state : State → Response
  | settings : Settings → Response
  | storedStats : StoredStats → Response
deriving DecidableEq, Repr

/-- Mirrors `Response::parse_header`. -/
def Response.parse_header (bs : List Nat) : Except Error (Unit × List Nat) :=
  pbind (read_u8 bs) fun (byte, bs) =>
  if byte = RESPONSE_HEADER then .ok ((), bs)
  else .error (.invalidResponseHeader byte)

/-- Mirrors `Response::parse_footer`. -/
def Response.parse_footer (bs : List Nat) : Except Error (Unit × List Nat) :=
  pbind (read_u8 bs) fun (byte, bs) =>
  if byte = MESSAGE_FOOTER then .ok ((), bs)
  else .error (.invalidResponseFooter byte)

/-- The subject-dispatched payload parse inside `Response::parse`
(`match subject { ... }` wrapping each payload into the `Response` sum). -/
def Response.parse_payload (subject : Subject) (bs : List Nat) :
    Except Error (Response × List Nat) :=
  match subject with
  | .state => pbind (State.parse bs) fun (s, bs) => .ok (Response.state s, bs)
  | .settings => pbind (Settings.parse bs) fun (s, bs) => .ok (Response.settings s, bs)
  | .storedStats =>
    pbind (StoredStats.parse bs) fun (s, bs) => .ok (Response.storedStats s, bs)

/-- Mirrors `Response::parse`: header, subject, subject-specific payload, one
checksum byte read and discarded, footer, then no remaining bytes. -/
def Response.parse (bs : List Nat) : Except Error Response :=
  pbind (Response.parse_header bs) fun (_, bs) =>
  pbind (read_u8 bs) fun (sb, bs) =>
  pbind (Subject.tryFrom sb) fun subject =>
  pbind (Response.parse_payload subject bs) fun (response, bs) =>
  pbind (read_u8 bs) fun (_, bs) =>
  pbind (Response.parse_footer bs) fun (_, bs) =>
  match bs with
  | [] => .ok response
  | _ => .error .bytesAfterFooter

/-- Mirrors crabwalk's `RunStats` record (src/crabwalk/src/main.rs); the wall
clock `DateTime` is modelled as a `Nat` timestamp. -/
structure RunStats where
  start_time : Nat
  duration : Nat
  distance : Nat
  nb_steps : Nat
deriving DecidableEq, Repr

/-- Observable effects of `handle_state_update`: writing one completed-run
record to the stats file, and sending one request over the channel. -/
inductive TrackerEvent where
  | emitRun : RunStats → TrackerEvent
  | sendRequest : Request → TrackerEvent
deriving DecidableEq, Repr

/-- Mirrors crabwalk's `handle_state_update`: the 2-state tracker step.
`app_state` is `Option (last running snapshot, wall clock at run start)`;
`now` is the wall clock observed by this call (`SystemTime::now()`).
The returned event list preserves the code's effect order: the completed-run
record is written before `clear_stats` is sent. -/
def handle_state_update (app_state : Option (State × Nat)) (state : State)
    (now : Nat) : Option (State × Nat) × List TrackerEvent :=
  match app_state with
  | some (last_state, start_time) =>
    if state.motor_state = MotorState.running then
      (some (state, start_time), [])
    else
      let stats : RunStats :=
        { start_time := start_time
          duration := last_state.run_time
          distance := last_state.distance
          nb_steps := last_state.nb_steps }
      (none, [.emitRun stats, .sendRequest request.clear_stats])
  | none =>
    if state.motor_state = MotorState.running then
      (some (state, now), [])
    else
      (none, [])

/-- Folds `handle_state_update` over an ordered snapshot sequence (each
snapshot paired with the wall clock at which it is handled), starting from
the given tracker state, collecting the emitted events in order. -/
def run_tracker_go (app_state : Option (State × Nat)) :
    List (State × Nat) → List TrackerEvent
  | [] => []
  | (state, now) :: rest =>
    let (app_state2, events) := handle_state_update app_state state now
    events ++ run_tracker_go app_state2 rest

/-- The run tracker over a whole snapshot sequence, from the initial Idle
state (`app_state = None`). -/
def run_tracker (snapshots : List (State × Nat)) : List TrackerEvent :=
  run_tracker_go none snapshots

/-- One item of the notification stream as seen by `get_stats`
(src/walkingpad_protocol/examples/prototype.rs): either a successfully
decoded response or a decode failure. -/
inductive Notification where
  | decoded : Response → Notification
  | malformed : Notification
deriving DecidableEq, Repr

/-- Mirrors the loop body of `get_stats`: walks the stored-run list, sending
a follow-up request per `next_id`, accumulating records in arrival order.
Returns (requests sent inside the loop, accumulated records). -/
def get_stats_go : List Notification → List StoredStats →
    List Request × List StoredStats
  | [], acc => ([], acc)
  | n :: rest, acc =>
    match n with
    | .decoded (.storedStats s) =>
      let acc2 := acc ++ [s]
      match s.next_id with
      | some id =>
        let (reqs, res) := get_stats_go rest acc2
        (request.get.stored_stats id :: reqs, res)
      | none => ([request.clear_stats], acc2)
    | _ => get_stats_go rest acc

/-- Mirrors `get_stats`: sends `latest_stored_stats` first, then runs the
walk loop.  Returns (all requests sent in order, returned record list). -/
def get_stats (events : List Notification) : List Request × List StoredStats :=
  let (reqs, res) := get_stats_go events []
  (request.get.latest_stored_stats :: reqs, res)

/-- Mirrors `walkingpad_btle::Error` as used by the walker and the retry
loop; `noWalkingPadFound` is the "no matching device found" discovery result
matched by crabwalk's `connect_with_retry`, and `other` stands for any other
connection-establishment failure. -/
inductive BtleError where
  | noWalkingPadFound
  | connectionClosed
  | other : Nat → BtleError
deriving DecidableEq, Repr

/-- One item observed by `fetch_stats`'s `recv_timeout` loop
(src/walkingpad_btle/examples/prototype.rs). -/
inductive RecvEvent where
  | received : Response → RecvEvent
  | timeout
  | disconnected
deriving DecidableEq, Repr

/-- Mirrors the loop body of `fetch_stats`: stored-run responses drive the
walk; other responses are logged and skipped; on a receive timeout the code
sends `latest_stored_stats` again and keeps waiting; a disconnect returns
`ConnectionClosed`.  Returns (requests sent inside the loop, outcome), where
outcome `none` means the script ended while the loop was still waiting. -/
def fetch_stats_go : List RecvEvent → List Request × Option (Except BtleError Unit)
  | [] => ([], none)
  | e :: rest =>
    match e with
    | .received (.storedStats s) =>
      match s.next_id with
      | some id =>
        let (reqs, res) := fetch_stats_go rest
        (request.get.stored_stats id :: reqs, res)
      | none => ([request.clear_stats], some (.ok ()))
    | .received _ => fetch_stats_go rest
    | .timeout =>
      let (reqs, res) := fetch_stats_go rest
      (request.get.latest_stored_stats :: reqs, res)
    | .disconnected => ([], some (.error .connectionClosed))

/-- Mirrors `fetch_stats`: sends `latest_stored_stats` first, then runs the
receive loop. -/
def fetch_stats (events : List RecvEvent) :
    List Request × Option (Except BtleError Unit) :=
  let (reqs, res) := fetch_stats_go events
  (request.get.latest_stored_stats :: reqs, res)

/-- Result of one `walkingpad_btle::connect()` call; the established channel
pair is modelled as an opaque `Nat` handle. -/
abbrev ConnectResult := Except BtleError Nat

/-- Mirrors the loop of crabwalk's `connect_with_retry`.  `connect` is the
discovery collaborator, consulted once per loop iteration (`attempt` counts
the calls made so far); `retry_count` is the mutable counter of the source:
checked against `> 3` before being incremented. -/
def connect_with_retry_go (connect : Nat → ConnectResult) (attempt retry_count : Nat) :
    ConnectResult :=
  let result := connect attempt
  match result with
  | .error .noWalkingPadFound =>
    if h : retry_count > 3 then result
    else connect_with_retry_go connect (attempt + 1) (retry_count + 1)
  | _ => result
termination_by 4 - retry_count
decreasing_by omega

/-- Mirrors `connect_with_retry`: `retry_count` starts at 0. -/
def connect_with_retry (connect : Nat → ConnectResult) : ConnectResult :=
  connect_with_retry_go connect 0 0

/-- The 3-byte-field conclusions about a decoded response: every multi-byte
counter fits in 24 bits and every distance is 10 m times a 24-bit raw
value. -/
def responseFieldsOk : Response → Prop
  | .state s =>
    s.run_time < 16777216 ∧ s.nb_steps < 16777216 ∧
    ∃ raw, raw < 16777216 ∧ s.distance = 10 * raw
  | .settings _ => True
  | .storedStats t =>
    t.current_time < 16777216 ∧ t.start_time < 16777216 ∧
    t.duration < 16777216 ∧ t.nb_steps < 16777216 ∧
    ∃ raw, raw < 16777216 ∧ t.distance = 10 * raw

/-- Oracle for the retry loop: the first `k` discovery attempts report
"no WalkingPad found", every later attempt yields `result`. -/
def connectNotFoundThen (k : Nat) (result : ConnectResult) : Nat → ConnectResult :=
  fun i => if i < k then .error .noWalkingPadFound else result

/-! ## Fixtures -/

/-- Fixture: a Running live-state snapshot with distance 0 and 0 steps. -/
def sampleRunning0 : State :=
  { motor_state := .running, speed := ⟨20⟩, mode := .manual, run_time := 0,
    distance := 0, nb_steps := 0, unknown := (0, 0, 0, 0) }

/-- Fixture: a Running live-state snapshot with distance 100 m and 50 steps. -/
def sampleRunning1 : State :=
  { motor_state := .running, speed := ⟨20⟩, mode := .manual, run_time := 300,
    distance := 100, nb_steps := 50, unknown := (0, 0, 0, 0) }

/-- Fixture: a Stopped live-state snapshot. -/
def sampleStopped : State :=
  { motor_state := .stopped, speed := ⟨0⟩, mode := .manual, run_time := 310,
    distance := 100, nb_steps := 50, unknown := (0, 0, 0, 0) }

/-- Fixture: a stored run whose `next_id` is 7. -/
def sampleStored7 : StoredStats :=
  { current_time := 900, start_time := 500, duration := 400, distance := 1000,
    nb_steps := 700, next_id := some 7 }

/-- Fixture: a stored run whose `next_id` is 3. -/
def sampleStored3 : StoredStats :=
  { current_time := 500, start_time := 200, duration := 300, distance := 800,
    nb_steps := 600, next_id := some 3 }

/-- Fixture: the last stored run of the chain (`next_id` absent). -/
def sampleStoredLast : StoredStats :=
  { current_time := 200, start_time := 100, duration := 100, distance := 300,
    nb_steps := 200, next_id := none }

/-! ## Helper lemmas -/

lemma pbind_ok_inv {α β : Type} {x : Except Error α} {k : α → Except Error β}
    {v : β} (h : pbind x k = .ok v) : ∃ a, x = .ok a ∧ k a = .ok v := by
  cases x with
  | error e => simp [pbind] at h
  | ok a => exact ⟨a, rfl, h⟩

lemma read_u8_ok_inv {bs : List Nat} {b : Nat} {bs2 : List Nat}
    (h : read_u8 bs = .ok (b, bs2)) : bs = b :: bs2 := by
  cases bs with
  | nil => simp [read_u8] at h
  | cons x xs =>
    simp only [read_u8, Except.ok.injEq, Prod.mk.injEq] at h
    rw [h.1, h.2]

lemma read_step {β : Type} {bs : List Nat} {k : Nat × List Nat → Except Error β}
    {v : β} (h : pbind (read_u8 bs) k = .ok v) :
    ∃ b rest, bs = b :: rest ∧ k (b, rest) = .ok v := by
  cases bs with
  | nil => simp [read_u8, pbind] at h
  | cons b rest =>
    refine ⟨b, rest, rfl, ?_⟩
    simpa [read_u8, pbind] using h

lemma read_u32_cons (b1 b2 b3 : Nat) (bs : List Nat) :
    read_u32 (b1 :: b2 :: b3 :: bs) = .ok (u32FromBeBytes0 b1 b2 b3, bs) := rfl

lemma read_u32_ok_inv {bs : List Nat} {v : Nat} {bs2 : List Nat}
    (h : read_u32 bs = .ok (v, bs2)) :
    ∃ b1 b2 b3, bs = b1 :: b2 :: b3 :: bs2 ∧ v = u32FromBeBytes0 b1 b2 b3 := by
  rcases bs with _ | ⟨b1, _ | ⟨b2, _ | ⟨b3, bs⟩⟩⟩
  · simp [read_u32, read_u8, pbind] at h
  · simp [read_u32, read_u8, pbind] at h
  · simp [read_u32, read_u8, pbind] at h
  · rw [read_u32_cons] at h
    simp only [Except.ok.injEq, Prod.mk.injEq] at h
    exact ⟨b1, b2, b3, by rw [h.2], h.1.symm⟩

lemma tryFromHm_of_le {v : Nat} (h : v ≤ 60) :
    Speed.tryFromHmPerHour v = .ok ⟨v⟩ := by
  simp [Speed.tryFromHmPerHour, Speed.MAX, h]

lemma tryFromHm_of_gt {v : Nat} (h : 60 < v) :
    Speed.tryFromHmPerHour v = .error (.invalidSpeed v) := by
  simp [Speed.tryFromHmPerHour, Speed.MAX]
  omega

lemma tryFromHm_ok_inv {v : Nat} {s : Speed}
    (h : Speed.tryFromHmPerHour v = .ok s) : v ≤ 60 ∧ s = ⟨v⟩ := by
  by_cases hv : v ≤ 60
  · rw [tryFromHm_of_le hv] at h
    simp only [Except.ok.injEq] at h
    exact ⟨hv, h.symm⟩
  · rw [tryFromHm_of_gt (by omega)] at h
    simp at h

lemma mode_tryFrom_ok_exists {v : Nat} (h : v = 0 ∨ v = 1 ∨ v = 2 ∨ v = 4) :
    ∃ m, Mode.tryFrom v = .ok m := by
  rcases h with rfl | rfl | rfl | rfl <;> exact ⟨_, rfl⟩

lemma mode_tryFrom_of_invalid {v : Nat}
    (h : ¬(v = 0 ∨ v = 1 ∨ v = 2 ∨ v = 4)) :
    Mode.tryFrom v = .error (.invalidType v typeNameMode) := by
  push_neg at h
  simp [Mode.tryFrom, h.1, h.2.1, h.2.2.1, h.2.2.2]

lemma sens_tryFrom_ok_exists {v : Nat} (h : v = 1 ∨ v = 2 ∨ v = 3) :
    ∃ s, Sensitivity.tryFrom v = .ok s := by
  rcases h with rfl | rfl | rfl <;> exact ⟨_, rfl⟩

lemma sens_tryFrom_of_invalid {v : Nat} (h : ¬(v = 1 ∨ v = 2 ∨ v = 3)) :
    Sensitivity.tryFrom v = .error (.invalidType v typeNameSensitivity) := by
  push_neg at h
  simp [Sensitivity.tryFrom, h.1, h.2.1, h.2.2]

lemma units_tryFrom_ok_exists {v : Nat} (h : v = 0 ∨ v = 1) :
    ∃ u, Units.tryFrom v = .ok u := by
  rcases h with rfl | rfl <;> exact ⟨_, rfl⟩

lemma units_tryFrom_of_invalid {v : Nat} (h : ¬(v = 0 ∨ v = 1)) :
    Units.tryFrom v = .error (.invalidType v typeNameUnits) := by
  push_neg at h
  simp [Units.tryFrom, h.1, h.2]

lemma flags_tryFrom_of_lt {v : Nat} (h : v < 32) :
    InfoFlags.tryFrom v = .ok ⟨v⟩ := by
  simp [InfoFlags.tryFrom, h]

lemma flags_tryFrom_of_ge {v : Nat} (h : ¬ v < 32) :
    InfoFlags.tryFrom v = .error (.invalidType v typeNameInfoFlags) := by
  simp [InfoFlags.tryFrom, h]

lemma u32FromBeBytes0_lt {b1 b2 b3 : Nat} (h1 : b1 < 256) (h2 : b2 < 256)
    (h3 : b3 < 256) : u32FromBeBytes0 b1 b2 b3 < 16777216 := by
  unfold u32FromBeBytes0
  omega

lemma state_parse_eval (m sp mo t1 t2 t3 d1 d2 d3 s1 s2 s3 u1 u2 u3 u4 : Nat)
    (rest : List Nat) :
    State.parse (m :: sp :: mo :: t1 :: t2 :: t3 :: d1 :: d2 :: d3 :: s1 ::
        s2 :: s3 :: u1 :: u2 :: u3 :: u4 :: rest) =
      pbind (Speed.tryFromHmPerHour sp) fun speed =>
      pbind (Mode.tryFrom mo) fun mode =>
      .ok ({ motor_state := MotorState.ofNat m
             speed := speed
             mode := mode
             run_time := u32FromBeBytes0 t1 t2 t3
             distance := to_distance (u32FromBeBytes0 d1 d2 d3)
             nb_steps := u32FromBeBytes0 s1 s2 s3
             unknown := (u1, u2, u3, u4) }, rest) := rfl

lemma settings_parse_eval
    (a1 a2 a3 a4 a5 a6 a7 a8 a9 a10 a11 a12 a13 a14 a15 a16 : Nat)
    (rest : List Nat) :
    Settings.parse (a1 :: a2 :: a3 :: a4 :: a5 :: a6 :: a7 :: a8 :: a9 ::
        a10 :: a11 :: a12 :: a13 :: a14 :: a15 :: a16 :: rest) =
      pbind (Speed.tryFromHmPerHour a6) fun max_speed =>
      pbind (Speed.tryFromHmPerHour a7) fun start_speed =>
      pbind (Mode.tryFrom a8) fun start_mode =>
      pbind (Sensitivity.tryFrom a9) fun sensitivity =>
      pbind (InfoFlags.tryFrom a10) fun display =>
      pbind (Units.tryFrom a12) fun units =>
      .ok ({ goal_type := a1
             goal := u32FromBeBytes0 a2 a3 a4
             calibration := a5
             max_speed := max_speed
             start_speed := start_speed
             start_mode := start_mode
             sensitivity := sensitivity
             display := display
             is_locked := a11 ≠ 0
             units := units
             unknown := (a13, a14, a15, a16) }, rest) := rfl

lemma storedStats_parse_eval
    (a1 a2 a3 a4 a5 a6 a7 a8 a9 a10 a11 a12 a13 a14 a15 a16 : Nat)
    (rest : List Nat) :
    StoredStats.parse (a1 :: a2 :: a3 :: a4 :: a5 :: a6 :: a7 :: a8 :: a9 ::
        a10 :: a11 :: a12 :: a13 :: a14 :: a15 :: a16 :: rest) =
      .ok ({ current_time := u32FromBeBytes0 a1 a2 a3
             start_time := u32FromBeBytes0 a4 a5 a6
             duration := u32FromBeBytes0 a7 a8 a9
             distance := to_distance (u32FromBeBytes0 a10 a11 a12)
             nb_steps := u32FromBeBytes0 a13 a14 a15
             next_id := if a16 = 0 then none else some a16 }, rest) := rfl

lemma Response.parse_state_frame
    (m sp mo t1 t2 t3 d1 d2 d3 s1 s2 s3 u1 u2 u3 u4 crc f : Nat)
    (rest : List Nat) :
    Response.parse (248 :: 162 :: m :: sp :: mo :: t1 :: t2 :: t3 :: d1 ::
        d2 :: d3 :: s1 :: s2 :: s3 :: u1 :: u2 :: u3 :: u4 :: crc :: f :: rest) =
      pbind (Speed.tryFromHmPerHour sp) fun speed =>
      pbind (Mode.tryFrom mo) fun mode =>
      if f = MESSAGE_FOOTER then
        match rest with
        | [] => .ok (Response.state
            { motor_state := MotorState.ofNat m
              speed := speed
              mode := mode
              run_time := u32FromBeBytes0 t1 t2 t3
              distance := to_distance (u32FromBeBytes0 d1 d2 d3)
              nb_steps := u32FromBeBytes0 s1 s2 s3
              unknown := (u1, u2, u3, u4) })
        | _ => .error .bytesAfterFooter
      else .error (.invalidResponseFooter f) := by
  rcases hsp : Speed.tryFromHmPerHour sp with e | speed <;>
    rcases hmo : Mode.tryFrom mo with e2 | mode <;>
      by_cases hf : f = 253 <;>
        rcases rest with _ | ⟨x, xs⟩ <;>
          simp [Response.parse, Response.parse_header, Response.parse_footer,
            Response.parse_payload, read_u8, pbind, Subject.tryFrom,
            state_parse_eval, hsp, hmo, hf, RESPONSE_HEADER, MESSAGE_FOOTER]

lemma Response.parse_settings_frame
    (a1 a2 a3 a4 a5 a6 a7 a8 a9 a10 a11 a12 a13 a14 a15 a16 crc f : Nat)
    (rest : List Nat) :
    Response.parse (248 :: 166 :: a1 :: a2 :: a3 :: a4 :: a5 :: a6 :: a7 ::
        a8 :: a9 :: a10 :: a11 :: a12 :: a13 :: a14 :: a15 :: a16 :: crc ::
        f :: rest) =
      pbind (Speed.tryFromHmPerHour a6) fun max_speed =>
      pbind (Speed.tryFromHmPerHour a7) fun start_speed =>
      pbind (Mode.tryFrom a8) fun start_mode =>
      pbind (Sensitivity.tryFrom a9) fun sensitivity =>
      pbind (InfoFlags.tryFrom a10) fun display =>
      pbind (Units.tryFrom a12) fun units =>
      if f = MESSAGE_FOOTER then
        match rest with
        | [] => .ok (Response.settings
            { goal_type := a1
              goal := u32FromBeBytes0 a2 a3 a4
              calibration := a5
              max_speed := max_speed
              start_speed := start_speed
              start_mode := start_mode
              sensitivity := sensitivity
              display := display
              is_locked := a11 ≠ 0
              units := units
              unknown := (a13, a14, a15, a16) })
        | _ => .error .bytesAfterFooter
      else .error (.invalidResponseFooter f) := by
  rcases hm : Speed.tryFromHmPerHour a6 with e | max_speed <;>
    rcases hs : Speed.tryFromHmPerHour a7 with e2 | start_speed <;>
      rcases hmo : Mode.tryFrom a8 with e3 | start_mode <;>
        rcases hse : Sensitivity.tryFrom a9 with e4 | sensitivity <;>
          rcases hd : InfoFlags.tryFrom a10 with e5 | display <;>
            rcases hu : Units.tryFrom a12 with e6 | units <;>
              by_cases hf : f = 253 <;>
                rcases rest with _ | ⟨x, xs⟩ <;>
                  simp [Response.parse, Response.parse_header,
                    Response.parse_footer, Response.parse_payload, read_u8,
                    pbind, Subject.tryFrom, settings_parse_eval, hm, hs, hmo,
                    hse, hd, hu, hf, RESPONSE_HEADER, MESSAGE_FOOTER]

lemma Response.parse_stored_frame
    (a1 a2 a3 a4 a5 a6 a7 a8 a9 a10 a11 a12 a13 a14 a15 a16 crc f : Nat)
    (rest : List Nat) :
    Response.parse (248 :: 167 :: a1 :: a2 :: a3 :: a4 :: a5 :: a6 :: a7 ::
        a8 :: a9 :: a10 :: a11 :: a12 :: a13 :: a14 :: a15 :: a16 :: crc ::
        f :: rest) =
      if f = MESSAGE_FOOTER then
        match rest with
        | [] => .ok (Response.storedStats
            { current_time := u32FromBeBytes0 a1 a2 a3
              start_time := u32FromBeBytes0 a4 a5 a6
              duration := u32FromBeBytes0 a7 a8 a9
              distance := to_distance (u32FromBeBytes0 a10 a11 a12)
              nb_steps := u32FromBeBytes0 a13 a14 a15
              next_id := if a16 = 0 then none else some a16 })
        | _ => .error .bytesAfterFooter
      else .error (.invalidResponseFooter f) := by
  by_cases hf : f = 253 <;>
    rcases rest with _ | ⟨x, xs⟩ <;>
      simp [Response.parse, Response.parse_header, Response.parse_footer,
        Response.parse_payload, storedStats_parse_eval, read_u8, pbind,
        Subject.tryFrom, hf, RESPONSE_HEADER, MESSAGE_FOOTER]

lemma Response.parse_stored_short (t : List Nat) (hlen : t.length ≤ 17) :
    Response.parse (248 :: 167 :: t) = .error .responseTooShort := by
  rcases t with _|⟨b1,_|⟨b2,_|⟨b3,_|⟨b4,_|⟨b5,_|⟨b6,_|⟨b7,_|⟨b8,_|⟨b9,
    _|⟨b10,_|⟨b11,_|⟨b12,_|⟨b13,_|⟨b14,_|⟨b15,_|⟨b16,_|⟨b17,_|⟨b18,t⟩⟩⟩⟩⟩⟩⟩⟩⟩⟩⟩⟩⟩⟩⟩⟩⟩⟩ <;>
    first
      | (exfalso; simp only [List.length_cons] at hlen; omega)
      | rfl

lemma Response.parse_state_short (t : List Nat) (hlen : t.length ≤ 17)
    (hsp : ∀ v, t.get? 1 = some v → v ≤ 60)
    (hmo : ∀ v, t.get? 2 = some v → v = 0 ∨ v = 1 ∨ v = 2 ∨ v = 4) :
    Response.parse (248 :: 162 :: t) = .error .responseTooShort := by
  rcases t with _ | ⟨a1, _ | ⟨a2, _ | ⟨a3, t⟩⟩⟩
  · rfl
  · rfl
  · have h2 := hsp a2 rfl
    simp [Response.parse, Response.parse_header, Response.parse_payload,
      State.parse, read_u8, read_u32, pbind, Subject.tryFrom,
      tryFromHm_of_le h2, RESPONSE_HEADER]
  · have h2 := hsp a2 rfl
    obtain ⟨mo, hmo_eq⟩ := mode_tryFrom_ok_exists (hmo a3 rfl)
    rcases t with _|⟨b1,_|⟨b2,_|⟨b3,_|⟨b4,_|⟨b5,_|⟨b6,_|⟨b7,_|⟨b8,
      _|⟨b9,_|⟨b10,_|⟨b11,_|⟨b12,_|⟨b13,_|⟨b14,_|⟨b15,t⟩⟩⟩⟩⟩⟩⟩⟩⟩⟩⟩⟩⟩⟩⟩ <;>
      first
        | (exfalso; simp only [List.length_cons] at hlen; omega)
        | simp [Response.parse, Response.parse_header, Response.parse_footer,
            Response.parse_payload, State.parse, read_u8, read_u32, pbind,
            Subject.tryFrom, tryFromHm_of_le h2, hmo_eq, RESPONSE_HEADER,
            MESSAGE_FOOTER]

lemma Response.parse_settings_short (t : List Nat) (hlen : t.length ≤ 17)
    (h5 : ∀ v, t.get? 5 = some v → v ≤ 60)
    (h6 : ∀ v, t.get? 6 = some v → v ≤ 60)
    (h7 : ∀ v, t.get? 7 = some v → v = 0 ∨ v = 1 ∨ v = 2 ∨ v = 4)
    (h8 : ∀ v, t.get? 8 = some v → v = 1 ∨ v = 2 ∨ v = 3)
    (h9 : ∀ v, t.get? 9 = some v → v < 32)
    (h11 : ∀ v, t.get? 11 = some v → v = 0 ∨ v = 1) :
    Response.parse (248 :: 166 :: t) = .error .responseTooShort := by
  rcases t with _ | ⟨a1, _ | ⟨a2, _ | ⟨a3, _ | ⟨a4, _ | ⟨a5, t⟩⟩⟩⟩⟩
  · rfl
  · rfl
  · rfl
  · rfl
  · rfl
  rcases t with _ | ⟨a6, t⟩
  · rfl
  have hm := h5 a6 rfl
  rcases t with _ | ⟨a7, t⟩
  · simp [Response.parse, Response.parse_header, Response.parse_payload,
      Settings.parse, read_u8, read_u32, pbind, Subject.tryFrom,
      tryFromHm_of_le hm, RESPONSE_HEADER]
  have hs := h6 a7 rfl
  rcases t with _ | ⟨a8, t⟩
  · simp [Response.parse, Response.parse_header, Response.parse_payload,
      Settings.parse, read_u8, read_u32, pbind, Subject.tryFrom,
      tryFromHm_of_le hm, tryFromHm_of_le hs, RESPONSE_HEADER]
  obtain ⟨mo, hmo_eq⟩ := mode_tryFrom_ok_exists (h7 a8 rfl)
  rcases t with _ | ⟨a9, t⟩
  · simp [Response.parse, Response.parse_header, Response.parse_payload,
      Settings.parse, read_u8, read_u32, pbind, Subject.tryFrom,
      tryFromHm_of_le hm, tryFromHm_of_le hs, hmo_eq, RESPONSE_HEADER]
  obtain ⟨se, hse_eq⟩ := sens_tryFrom_ok_exists (h8 a9 rfl)
  rcases t with _ | ⟨a10, t⟩
  · simp [Response.parse, Response.parse_header, Response.parse_payload,
      Settings.parse, read_u8, read_u32, pbind, Subject.tryFrom,
      tryFromHm_of_le hm, tryFromHm_of_le hs, hmo_eq, hse_eq, RESPONSE_HEADER]
  have hdv := flags_tryFrom_of_lt (h9 a10 rfl)
  rcases t with _ | ⟨a11, t⟩
  · simp [Response.parse, Response.parse_header, Response.parse_payload,
      Settings.parse, read_u8, read_u32, pbind, Subject.tryFrom,
      tryFromHm_of_le hm, tryFromHm_of_le hs, hmo_eq, hse_eq, hdv,
      RESPONSE_HEADER]
  rcases t with _ | ⟨a12, t⟩
  · simp [Response.parse, Response.parse_header, Response.parse_payload,
      Settings.parse, read_u8, read_u32, pbind, Subject.tryFrom,
      tryFromHm_of_le hm, tryFromHm_of_le hs, hmo_eq, hse_eq, hdv,
      RESPONSE_HEADER]
  obtain ⟨un, hun_eq⟩ := units_tryFrom_ok_exists (h11 a12 rfl)
  rcases t with _|⟨c1,_|⟨c2,_|⟨c3,_|⟨c4,_|⟨c5,_|⟨c6,t⟩⟩⟩⟩⟩⟩ <;>
    first
      | (exfalso; simp only [List.length_cons] at hlen; omega)
      | simp [Response.parse, Response.parse_header, Response.parse_footer,
          Response.parse_payload, Settings.parse, read_u8, read_u32, pbind,
          Subject.tryFrom, tryFromHm_of_le hm, tryFromHm_of_le hs, hmo_eq,
          hse_eq, hdv, hun_eq, RESPONSE_HEADER, MESSAGE_FOOTER]

lemma Response.parse_nil : Response.parse [] = .error .responseTooShort := rfl

lemma Response.parse_bad_header {b : Nat} (h : b ≠ 248) (bs : List Nat) :
    Response.parse (b :: bs) = .error (.invalidResponseHeader b) := by
  simp [Response.parse, Response.parse_header, read_u8, pbind,
    RESPONSE_HEADER, h]

lemma Response.parse_only_header : Response.parse [248] = .error .responseTooShort := rfl

lemma Response.parse_bad_subject {s : Nat} (h1 : s ≠ 162) (h2 : s ≠ 166)
    (h3 : s ≠ 167) (bs : List Nat) :
    Response.parse (248 :: s :: bs) = .error (.invalidType s typeNameSubject) := by
  simp [Response.parse, Response.parse_header, read_u8, pbind,
    RESPONSE_HEADER, Subject.tryFrom, h1, h2, h3]

lemma to_distance_of_lt {d : Nat} (h : d < 16777216) :
    to_distance d = 10 * d := by
  unfold to_distance
  omega

lemma Response.parse_state_short_not_ok (t : List Nat) (hlen : t.length ≤ 17)
    (r : Response) : Response.parse (248 :: 162 :: t) ≠ .ok r := by
  rcases t with _ | ⟨a1, _ | ⟨a2, _ | ⟨a3, t⟩⟩⟩
  · simp [Response.parse, Response.parse_header, Response.parse_payload,
      State.parse, read_u8, pbind, Subject.tryFrom, RESPONSE_HEADER]
  · simp [Response.parse, Response.parse_header, Response.parse_payload,
      State.parse, read_u8, pbind, Subject.tryFrom, RESPONSE_HEADER]
  · rcases hsp : Speed.tryFromHmPerHour a2 with e | sp <;>
      simp [Response.parse, Response.parse_header, Response.parse_payload,
        State.parse, read_u8, pbind, Subject.tryFrom, hsp, RESPONSE_HEADER]
  · rcases hsp : Speed.tryFromHmPerHour a2 with e | sp
    · simp [Response.parse, Response.parse_header, Response.parse_payload,
        State.parse, read_u8, pbind, Subject.tryFrom, hsp, RESPONSE_HEADER]
    rcases hmo : Mode.tryFrom a3 with e2 | mo
    · simp [Response.parse, Response.parse_header, Response.parse_payload,
        State.parse, read_u8, pbind, Subject.tryFrom, hsp, hmo,
        RESPONSE_HEADER]
    rcases t with _|⟨b1,_|⟨b2,_|⟨b3,_|⟨b4,_|⟨b5,_|⟨b6,_|⟨b7,_|⟨b8,
      _|⟨b9,_|⟨b10,_|⟨b11,_|⟨b12,_|⟨b13,_|⟨b14,_|⟨b15,t⟩⟩⟩⟩⟩⟩⟩⟩⟩⟩⟩⟩⟩⟩⟩ <;>
      first
        | (exfalso; simp only [List.length_cons] at hlen; omega)
        | simp [Response.parse, Response.parse_header, Response.parse_footer,
            Response.parse_payload, State.parse, read_u8, read_u32, pbind,
            Subject.tryFrom, hsp, hmo, RESPONSE_HEADER, MESSAGE_FOOTER]

lemma Response.parse_settings_short_not_ok (t : List Nat)
    (hlen : t.length ≤ 17) (r : Response) :
    Response.parse (248 :: 166 :: t) ≠ .ok r := by
  rcases t with _ | ⟨a1, _ | ⟨a2, _ | ⟨a3, _ | ⟨a4, _ | ⟨a5, t⟩⟩⟩⟩⟩
  · simp [Response.parse, Response.parse_header, Response.parse_payload,
      Settings.parse, read_u8, read_u32, pbind, Subject.tryFrom,
      RESPONSE_HEADER]
  · simp [Response.parse, Response.parse_header, Response.parse_payload,
      Settings.parse, read_u8, read_u32, pbind, Subject.tryFrom,
      RESPONSE_HEADER]
  · simp [Response.parse, Response.parse_header, Response.parse_payload,
      Settings.parse, read_u8, read_u32, pbind, Subject.tryFrom,
      RESPONSE_HEADER]
  · simp [Response.parse, Response.parse_header, Response.parse_payload,
      Settings.parse, read_u8, read_u32, pbind, Subject.tryFrom,
      RESPONSE_HEADER]
  · simp [Response.parse, Response.parse_header, Response.parse_payload,
      Settings.parse, read_u8, read_u32, pbind, Subject.tryFrom,
      RESPONSE_HEADER]
  rcases t with _ | ⟨a6, t⟩
  · simp [Response.parse, Response.parse_header, Response.parse_payload,
      Settings.parse, read_u8, read_u32, pbind, Subject.tryFrom,
      RESPONSE_HEADER]
  rcases hm : Speed.tryFromHmPerHour a6 with e | mx
  · simp [Response.parse, Response.parse_header, Response.parse_payload,
      Settings.parse, read_u8, read_u32, pbind, Subject.tryFrom, hm,
      RESPONSE_HEADER]
  rcases t with _ | ⟨a7, t⟩
  · simp [Response.parse, Response.parse_header, Response.parse_payload,
      Settings.parse, read_u8, read_u32, pbind, Subject.tryFrom, hm,
      RESPONSE_HEADER]
  rcases hs : Speed.tryFromHmPerHour a7 with e | st
  · simp [Response.parse, Response.parse_header, Response.parse_payload,
      Settings.parse, read_u8, read_u32, pbind, Subject.tryFrom, hm, hs,
      RESPONSE_HEADER]
  rcases t with _ | ⟨a8, t⟩
  · simp [Response.parse, Response.parse_header, Response.parse_payload,
      Settings.parse, read_u8, read_u32, pbind, Subject.tryFrom, hm, hs,
      RESPONSE_HEADER]
  rcases hmo : Mode.tryFrom a8 with e | mo
  · simp [Response.parse, Response.parse_header, Response.parse_payload,
      Settings.parse, read_u8, read_u32, pbind, Subject.tryFrom, hm, hs, hmo,
      RESPONSE_HEADER]
  rcases t with _ | ⟨a9, t⟩
  · simp [Response.parse, Response.parse_header, Response.parse_payload,
      Settings.parse, read_u8, read_u32, pbind, Subject.tryFrom, hm, hs, hmo,
      RESPONSE_HEADER]
  rcases hse : Sensitivity.tryFrom a9 with e | se
  · simp [Response.parse, Response.parse_header, Response.parse_payload,
      Settings.parse, read_u8, read_u32, pbind, Subject.tryFrom, hm, hs, hmo,
      hse, RESPONSE_HEADER]
  rcases t with _ | ⟨a10, t⟩
  · simp [Response.parse, Response.parse_header, Response.parse_payload,
      Settings.parse, read_u8, read_u32, pbind, Subject.tryFrom, hm, hs, hmo,
      hse, RESPONSE_HEADER]
  rcases hd : InfoFlags.tryFrom a10 with e | dl
  · simp [Response.parse, Response.parse_header, Response.parse_payload,
      Settings.parse, read_u8, read_u32, pbind, Subject.tryFrom, hm, hs, hmo,
      hse, hd, RESPONSE_HEADER]
  rcases t with _ | ⟨a11, t⟩
  · simp [Response.parse, Response.parse_header, Response.parse_payload,
      Settings.parse, read_u8, read_u32, pbind, Subject.tryFrom, hm, hs, hmo,
      hse, hd, RESPONSE_HEADER]
  rcases t with _ | ⟨a12, t⟩
  · simp [Response.parse, Response.parse_header, Response.parse_payload,
      Settings.parse, read_u8, read_u32, pbind, Subject.tryFrom, hm, hs, hmo,
      hse, hd, RESPONSE_HEADER]
  rcases hu : Units.tryFrom a12 with e | un
  · simp [Response.parse, Response.parse_header, Response.parse_payload,
      Settings.parse, read_u8, read_u32, pbind, Subject.tryFrom, hm, hs, hmo,
      hse, hd, hu, RESPONSE_HEADER]
  rcases t with _|⟨c1,_|⟨c2,_|⟨c3,_|⟨c4,_|⟨c5,_|⟨c6,t⟩⟩⟩⟩⟩⟩ <;>
    first
      | (exfalso; simp only [List.length_cons] at hlen; omega)
      | simp [Response.parse, Response.parse_header, Response.parse_footer,
          Response.parse_payload, Settings.parse, read_u8, read_u32, pbind,
          Subject.tryFrom, hm, hs, hmo, hse, hd, hu, RESPONSE_HEADER,
          MESSAGE_FOOTER]

/-- C1: every command factory encodes exactly the frame
`[0xF7, subject_code, message_code, param_bytes.., checksum, 0xFD]`, where the
parameter is the command's fixed 1-byte or 4-byte big-endian value from the
command table and the checksum is the unsigned 8-bit wraparound sum of the
subject byte, the message-code byte and the parameter bytes (header and footer
excluded). -/
theorem C1_command_frames :
    request.start.asBytes = [247, 162, 4, 1, (162 + 4 + 1) % 256, 253] ∧
    request.stop.asBytes = [247, 162, 4, 0, (162 + 4 + 0) % 256, 253] ∧
    request.get.state.asBytes = [247, 162, 0, 0, (162 + 0 + 0) % 256, 253] ∧
    request.get.settings.asBytes =
      [247, 166, 0, 0, 0, 0, 0, (166 + 0 + 0) % 256, 253] ∧
    request.get.latest_stored_stats.asBytes =
      [247, 167, 170, 255, (167 + 170 + 255) % 256, 253] ∧
    request.clear_stats.asBytes = [247, 167, 170, 0, (167 + 170 + 0) % 256, 253] ∧
    (∀ id : Nat, id < 256 →
      (request.get.stored_stats id).asBytes =
        [247, 167, 170, id, (167 + 170 + id) % 256, 253]) ∧
    (∀ s : Speed, s.inner < 256 →
      (request.set.speed s).asBytes =
        [247, 162, 1, s.inner, (162 + 1 + s.inner) % 256, 253]) ∧
    (∀ m : Mode,
      (request.set.mode m).asBytes =
        [247, 162, 2, m.code, (162 + 2 + m.code) % 256, 253]) ∧
    (∀ s : Speed, s.inner < 256 →
      (request.set.max_speed s).asBytes =
        [247, 166, 3, 0, 0, 0, s.inner, (166 + 3 + s.inner) % 256, 253]) ∧
    (∀ s : Speed, s.inner < 256 →
      (request.set.start_speed s).asBytes =
        [247, 166, 4, 0, 0, 0, s.inner, (166 + 4 + s.inner) % 256, 253]) ∧
    (∀ sens : Sensitivity,
      (request.set.sensitivity sens).asBytes =
        [247, 166, 6, 0, 0, 0, sens.code, (166 + 6 + sens.code) % 256, 253]) ∧
    (∀ f : InfoFlags, f.bits < 256 →
      (request.set.display f).asBytes =
        [247, 166, 7, 0, 0, 0, f.bits, (166 + 7 + f.bits) % 256, 253]) ∧
    (∀ u : Units,
      (request.set.units u).asBytes =
        [247, 166, 8, 0, 0, 0, u.code, (166 + 8 + u.code) % 256, 253]) ∧
    (∀ b : Bool,
      (request.set.locked b).asBytes =
        [247, 166, 9, 0, 0, 0, cond b 1 0, (166 + 9 + cond b 1 0) % 256, 253]) := by
  refine ⟨by decide, by decide, by decide, by decide, by decide, by decide,
    ?_, ?_, ?_, ?_, ?_, ?_, ?_, ?_, ?_⟩
  · intro id hid
    simp [request.get.stored_stats, Request.fromU8, Request.asBytes,
      RawRequest.new, RawRequest.asBytes, Subject.code, REQUEST_HEADER,
      MESSAGE_FOOTER, List.foldl]
    omega
  · intro s hs
    simp [request.set.speed, Request.fromU8, Request.asBytes, Speed.hmPerHour,
      RawRequest.new, RawRequest.asBytes, Subject.code, REQUEST_HEADER,
      MESSAGE_FOOTER, List.foldl]
    try omega
  · intro m
    cases m <;> decide
  · intro s hs
    simp [request.set.max_speed, Request.fromU32, Request.asBytes,
      Speed.hmPerHour, u32ToBeBytes, RawRequest.new, RawRequest.asBytes,
      Subject.code, REQUEST_HEADER, MESSAGE_FOOTER, List.foldl]
    omega
  · intro s hs
    simp [request.set.start_speed, Request.fromU32, Request.asBytes,
      Speed.hmPerHour, u32ToBeBytes, RawRequest.new, RawRequest.asBytes,
      Subject.code, REQUEST_HEADER, MESSAGE_FOOTER, List.foldl]
    omega
  · intro sens
    cases sens <;> decide
  · intro f hf
    simp [request.set.display, Request.fromU32, Request.asBytes, u32ToBeBytes,
      RawRequest.new, RawRequest.asBytes, Subject.code, REQUEST_HEADER,
      MESSAGE_FOOTER, List.foldl]
    omega
  · intro u
    cases u <;> decide
  · intro b
    cases b <;> decide

/-- C1 witness: the hypothesis-carrying conjuncts of `C1_command_frames`
evaluated at concrete inputs. -/
theorem C1_command_frames_witness :
    (request.get.stored_stats 7).asBytes = [247, 167, 170, 7, 88, 253] ∧
    (request.set.speed ⟨30⟩).asBytes = [247, 162, 1, 30, 193, 253] ∧
    (request.set.max_speed ⟨30⟩).asBytes =
      [247, 166, 3, 0, 0, 0, 30, 199, 253] ∧
    (request.set.start_speed ⟨25⟩).asBytes =
      [247, 166, 4, 0, 0, 0, 25, 195, 253] ∧
    (request.set.display ⟨31⟩).asBytes = [247, 166, 7, 0, 0, 0, 31, 204, 253] :=
  ⟨C1_command_frames.2.2.2.2.2.2.1 7 (by decide),
   C1_command_frames.2.2.2.2.2.2.2.1 ⟨30⟩ (by decide),
   C1_command_frames.2.2.2.2.2.2.2.2.2.1 ⟨30⟩ (by decide),
   C1_command_frames.2.2.2.2.2.2.2.2.2.2.1 ⟨25⟩ (by decide),
   C1_command_frames.2.2.2.2.2.2.2.2.2.2.2.2.1 ⟨31⟩ (by decide)⟩

/-- C2 counterexample: on the input `[0xF8, 0xA2, 0x00, 0xC8]` the first
violated framing rule in the claim's order is the missing field sequence
(the State payload is truncated after 2 of its 16 bytes), so the claim
predicts `ResponseTooShort`; `Response::parse` instead fails with
`InvalidSpeed(200)`, because the speed byte is validated as soon as it is
read, before the remaining framing checks. -/
theorem C2_counterexample :
    Response.parse [248, 162, 0, 200] = .error (.invalidSpeed 200) ∧
    Error.invalidSpeed 200 ≠ Error.responseTooShort :=
  ⟨rfl, by decide⟩

/-- C2 (amended): `Response::parse` checks, in order: the header byte
(`InvalidResponseHeader` when a first byte is present and is not 0xF8,
`ResponseTooShort` on empty input), the subject byte (`InvalidType` when not
one of {0xA2, 0xA6, 0xA7}, `ResponseTooShort` when absent), then the
subject-specific field sequence, which is read AND value-validated field by
field — a State/Settings payload-value failure (e.g. `InvalidSpeed`) preempts
all later checks — then `ResponseTooShort` when the fields, the checksum byte
or the footer byte are missing (given the payload bytes present pass their
value checks), `InvalidResponseFooter` when the byte after the checksum is
not 0xFD, and `BytesAfterFooter` when bytes remain after the footer; the
checksum byte is read and discarded without verification, and parse is a
total function returning a typed result on every input. -/
theorem C2_parse_errors :
    Response.parse [] = .error .responseTooShort ∧
    (∀ (b : Nat) (bs : List Nat), b ≠ 248 →
      Response.parse (b :: bs) = .error (.invalidResponseHeader b)) ∧
    Response.parse [248] = .error .responseTooShort ∧
    (∀ (s : Nat) (bs : List Nat), s ≠ 162 → s ≠ 166 → s ≠ 167 →
      Response.parse (248 :: s :: bs) = .error (.invalidType s typeNameSubject)) ∧
    (∀ (m sp : Nat) (bs : List Nat), 60 < sp →
      Response.parse (248 :: 162 :: m :: sp :: bs) = .error (.invalidSpeed sp)) ∧
    (∀ t : List Nat, t.length ≤ 17 →
      (∀ v, t.get? 1 = some v → v ≤ 60) →
      (∀ v, t.get? 2 = some v → v = 0 ∨ v = 1 ∨ v = 2 ∨ v = 4) →
      Response.parse (248 :: 162 :: t) = .error .responseTooShort) ∧
    (∀ t : List Nat, t.length ≤ 17 →
      (∀ v, t.get? 5 = some v → v ≤ 60) →
      (∀ v, t.get? 6 = some v → v ≤ 60) →
      (∀ v, t.get? 7 = some v → v = 0 ∨ v = 1 ∨ v = 2 ∨ v = 4) →
      (∀ v, t.get? 8 = some v → v = 1 ∨ v = 2 ∨ v = 3) →
      (∀ v, t.get? 9 = some v → v < 32) →
      (∀ v, t.get? 11 = some v → v = 0 ∨ v = 1) →
      Response.parse (248 :: 166 :: t) = .error .responseTooShort) ∧
    (∀ t : List Nat, t.length ≤ 17 →
      Response.parse (248 :: 167 :: t) = .error .responseTooShort) ∧
    (∀ a1 a2 a3 a4 a5 a6 a7 a8 a9 a10 a11 a12 a13 a14 a15 a16 crc f : Nat,
      ∀ rest : List Nat, f ≠ 253 →
      Response.parse (248 :: 167 :: a1 :: a2 :: a3 :: a4 :: a5 :: a6 :: a7 ::
          a8 :: a9 :: a10 :: a11 :: a12 :: a13 :: a14 :: a15 :: a16 :: crc ::
          f :: rest) = .error (.invalidResponseFooter f)) ∧
    (∀ m sp mo t1 t2 t3 d1 d2 d3 s1 s2 s3 u1 u2 u3 u4 crc f : Nat,
      ∀ rest : List Nat, sp ≤ 60 → (mo = 0 ∨ mo = 1 ∨ mo = 2 ∨ mo = 4) →
      f ≠ 253 →
      Response.parse (248 :: 162 :: m :: sp :: mo :: t1 :: t2 :: t3 :: d1 ::
          d2 :: d3 :: s1 :: s2 :: s3 :: u1 :: u2 :: u3 :: u4 :: crc :: f ::
          rest) = .error (.invalidResponseFooter f)) ∧
    (∀ (m sp mo : Nat) (bs : List Nat), sp ≤ 60 →
      ¬(mo = 0 ∨ mo = 1 ∨ mo = 2 ∨ mo = 4) →
      Response.parse (248 :: 162 :: m :: sp :: mo :: bs) =
        .error (.invalidType mo typeNameMode)) ∧
    (∀ (a1 a2 a3 a4 a5 a6 : Nat) (bs : List Nat), 60 < a6 →
      Response.parse (248 :: 166 :: a1 :: a2 :: a3 :: a4 :: a5 :: a6 :: bs) =
        .error (.invalidSpeed a6)) ∧
    (∀ (a1 a2 a3 a4 a5 a6 a7 : Nat) (bs : List Nat), a6 ≤ 60 → 60 < a7 →
      Response.parse (248 :: 166 :: a1 :: a2 :: a3 :: a4 :: a5 :: a6 :: a7 ::
          bs) = .error (.invalidSpeed a7)) ∧
    (∀ (a1 a2 a3 a4 a5 a6 a7 a8 : Nat) (bs : List Nat), a6 ≤ 60 → a7 ≤ 60 →
      ¬(a8 = 0 ∨ a8 = 1 ∨ a8 = 2 ∨ a8 = 4) →
      Response.parse (248 :: 166 :: a1 :: a2 :: a3 :: a4 :: a5 :: a6 :: a7 ::
          a8 :: bs) = .error (.invalidType a8 typeNameMode)) ∧
    (∀ (a1 a2 a3 a4 a5 a6 a7 a8 a9 : Nat) (bs : List Nat), a6 ≤ 60 →
      a7 ≤ 60 → (a8 = 0 ∨ a8 = 1 ∨ a8 = 2 ∨ a8 = 4) →
      ¬(a9 = 1 ∨ a9 = 2 ∨ a9 = 3) →
      Response.parse (248 :: 166 :: a1 :: a2 :: a3 :: a4 :: a5 :: a6 :: a7 ::
          a8 :: a9 :: bs) = .error (.invalidType a9 typeNameSensitivity)) ∧
    (∀ (a1 a2 a3 a4 a5 a6 a7 a8 a9 a10 : Nat) (bs : List Nat), a6 ≤ 60 →
      a7 ≤ 60 → (a8 = 0 ∨ a8 = 1 ∨ a8 = 2 ∨ a8 = 4) →
      (a9 = 1 ∨ a9 = 2 ∨ a9 = 3) → ¬ a10 < 32 →
      Response.parse (248 :: 166 :: a1 :: a2 :: a3 :: a4 :: a5 :: a6 :: a7 ::
          a8 :: a9 :: a10 :: bs) =
        .error (.invalidType a10 typeNameInfoFlags)) ∧
    (∀ (a1 a2 a3 a4 a5 a6 a7 a8 a9 a10 a11 a12 : Nat) (bs : List Nat),
      a6 ≤ 60 → a7 ≤ 60 → (a8 = 0 ∨ a8 = 1 ∨ a8 = 2 ∨ a8 = 4) →
      (a9 = 1 ∨ a9 = 2 ∨ a9 = 3) → a10 < 32 → ¬(a12 = 0 ∨ a12 = 1) →
      Response.parse (248 :: 166 :: a1 :: a2 :: a3 :: a4 :: a5 :: a6 :: a7 ::
          a8 :: a9 :: a10 :: a11 :: a12 :: bs) =
        .error (.invalidType a12 typeNameUnits)) ∧
    (∀ a1 a2 a3 a4 a5 a6 a7 a8 a9 a10 a11 a12 a13 a14 a15 a16 crc f : Nat,
      ∀ rest : List Nat, a6 ≤ 60 → a7 ≤ 60 →
      (a8 = 0 ∨ a8 = 1 ∨ a8 = 2 ∨ a8 = 4) → (a9 = 1 ∨ a9 = 2 ∨ a9 = 3) →
      a10 < 32 → (a12 = 0 ∨ a12 = 1) → f ≠ 253 →
      Response.parse (248 :: 166 :: a1 :: a2 :: a3 :: a4 :: a5 :: a6 :: a7 ::
          a8 :: a9 :: a10 :: a11 :: a12 :: a13 :: a14 :: a15 :: a16 :: crc ::
          f :: rest) = .error (.invalidResponseFooter f)) ∧
    (∀ m sp mo t1 t2 t3 d1 d2 d3 s1 s2 s3 u1 u2 u3 u4 crc x : Nat,
      ∀ xs : List Nat, sp ≤ 60 → (mo = 0 ∨ mo = 1 ∨ mo = 2 ∨ mo = 4) →
      Response.parse (248 :: 162 :: m :: sp :: mo :: t1 :: t2 :: t3 :: d1 ::
          d2 :: d3 :: s1 :: s2 :: s3 :: u1 :: u2 :: u3 :: u4 :: crc :: 253 ::
          x :: xs) = .error .bytesAfterFooter) ∧
    (∀ a1 a2 a3 a4 a5 a6 a7 a8 a9 a10 a11 a12 a13 a14 a15 a16 crc x : Nat,
      ∀ xs : List Nat, a6 ≤ 60 → a7 ≤ 60 →
      (a8 = 0 ∨ a8 = 1 ∨ a8 = 2 ∨ a8 = 4) → (a9 = 1 ∨ a9 = 2 ∨ a9 = 3) →
      a10 < 32 → (a12 = 0 ∨ a12 = 1) →
      Response.parse (248 :: 166 :: a1 :: a2 :: a3 :: a4 :: a5 :: a6 :: a7 ::
          a8 :: a9 :: a10 :: a11 :: a12 :: a13 :: a14 :: a15 :: a16 :: crc ::
          253 :: x :: xs) = .error .bytesAfterFooter) ∧
    (∀ m sp mo t1 t2 t3 d1 d2 d3 s1 s2 s3 u1 u2 u3 u4 crc crc2 : Nat,
      sp ≤ 60 → (mo = 0 ∨ mo = 1 ∨ mo = 2 ∨ mo = 4) →
      Response.parse (248 :: 162 :: m :: sp :: mo :: t1 :: t2 :: t3 :: d1 ::
          d2 :: d3 :: s1 :: s2 :: s3 :: u1 :: u2 :: u3 :: u4 :: [crc, 253]) =
        Response.parse (248 :: 162 :: m :: sp :: mo :: t1 :: t2 :: t3 :: d1 ::
          d2 :: d3 :: s1 :: s2 :: s3 :: u1 :: u2 :: u3 :: u4 ::
          [crc2, 253]) ∧
      ∃ r, Response.parse (248 :: 162 :: m :: sp :: mo :: t1 :: t2 :: t3 ::
          d1 :: d2 :: d3 :: s1 :: s2 :: s3 :: u1 :: u2 :: u3 :: u4 ::
          [crc, 253]) = .ok r) ∧
    (∀ a1 a2 a3 a4 a5 a6 a7 a8 a9 a10 a11 a12 a13 a14 a15 a16 crc crc2 : Nat,
      a6 ≤ 60 → a7 ≤ 60 → (a8 = 0 ∨ a8 = 1 ∨ a8 = 2 ∨ a8 = 4) →
      (a9 = 1 ∨ a9 = 2 ∨ a9 = 3) → a10 < 32 → (a12 = 0 ∨ a12 = 1) →
      Response.parse (248 :: 166 :: a1 :: a2 :: a3 :: a4 :: a5 :: a6 :: a7 ::
          a8 :: a9 :: a10 :: a11 :: a12 :: a13 :: a14 :: a15 :: a16 ::
          [crc, 253]) =
        Response.parse (248 :: 166 :: a1 :: a2 :: a3 :: a4 :: a5 :: a6 :: a7 ::
          a8 :: a9 :: a10 :: a11 :: a12 :: a13 :: a14 :: a15 :: a16 ::
          [crc2, 253]) ∧
      ∃ r, Response.parse (248 :: 166 :: a1 :: a2 :: a3 :: a4 :: a5 :: a6 ::
          a7 :: a8 :: a9 :: a10 :: a11 :: a12 :: a13 :: a14 :: a15 :: a16 ::
          [crc, 253]) = .ok r) ∧
    (∀ a1 a2 a3 a4 a5 a6 a7 a8 a9 a10 a11 a12 a13 a14 a15 a16 crc x : Nat,
      ∀ xs : List Nat,
      Response.parse (248 :: 167 :: a1 :: a2 :: a3 :: a4 :: a5 :: a6 :: a7 ::
          a8 :: a9 :: a10 :: a11 :: a12 :: a13 :: a14 :: a15 :: a16 :: crc ::
          253 :: x :: xs) = .error .bytesAfterFooter) ∧
    (∀ a1 a2 a3 a4 a5 a6 a7 a8 a9 a10 a11 a12 a13 a14 a15 a16 crc crc2 : Nat,
      Response.parse (248 :: 167 :: a1 :: a2 :: a3 :: a4 :: a5 :: a6 :: a7 ::
          a8 :: a9 :: a10 :: a11 :: a12 :: a13 :: a14 :: a15 :: a16 ::
          [crc, 253]) =
        Response.parse (248 :: 167 :: a1 :: a2 :: a3 :: a4 :: a5 :: a6 :: a7 ::
          a8 :: a9 :: a10 :: a11 :: a12 :: a13 :: a14 :: a15 :: a16 ::
          [crc2, 253]) ∧
      ∃ r, Response.parse (248 :: 167 :: a1 :: a2 :: a3 :: a4 :: a5 :: a6 ::
          a7 :: a8 :: a9 :: a10 :: a11 :: a12 :: a13 :: a14 :: a15 :: a16 ::
          [crc, 253]) = .ok r) ∧
    (∀ bs : List Nat,
      (∃ r, Response.parse bs = .ok r) ∨ ∃ e, Response.parse bs = .error e) := by
  refine ⟨Response.parse_nil, ?_, Response.parse_only_header, ?_, ?_,
    Response.parse_state_short, Response.parse_settings_short,
    Response.parse_stored_short, ?_, ?_, ?_, ?_, ?_, ?_, ?_, ?_, ?_, ?_, ?_,
    ?_, ?_, ?_, ?_, ?_, ?_⟩
  · intro b bs hb
    exact Response.parse_bad_header hb bs
  · intro s bs h1 h2 h3
    exact Response.parse_bad_subject h1 h2 h3 bs
  · intro m sp bs hsp
    simp [Response.parse, Response.parse_header, Response.parse_payload,
      State.parse, read_u8, pbind, Subject.tryFrom, tryFromHm_of_gt hsp,
      RESPONSE_HEADER]
  · intro a1 a2 a3 a4 a5 a6 a7 a8 a9 a10 a11 a12 a13 a14 a15 a16 crc f rest hf
    rw [Response.parse_stored_frame]
    simp [MESSAGE_FOOTER, hf]
  · intro m sp mo t1 t2 t3 d1 d2 d3 s1 s2 s3 u1 u2 u3 u4 crc f rest hsp hmo hf
    obtain ⟨mode, hmo_eq⟩ := mode_tryFrom_ok_exists hmo
    rw [Response.parse_state_frame, tryFromHm_of_le hsp, hmo_eq]
    simp [pbind, MESSAGE_FOOTER, hf]
  · intro m sp mo bs hsp hmo
    simp [Response.parse, Response.parse_header, Response.parse_payload,
      State.parse, read_u8, pbind, Subject.tryFrom, tryFromHm_of_le hsp,
      mode_tryFrom_of_invalid hmo, RESPONSE_HEADER]
  · intro a1 a2 a3 a4 a5 a6 bs hm
    simp [Response.parse, Response.parse_header, Response.parse_payload,
      Settings.parse, read_u8, read_u32, pbind, Subject.tryFrom,
      tryFromHm_of_gt hm, RESPONSE_HEADER]
  · intro a1 a2 a3 a4 a5 a6 a7 bs hm hs
    simp [Response.parse, Response.parse_header, Response.parse_payload,
      Settings.parse, read_u8, read_u32, pbind, Subject.tryFrom,
      tryFromHm_of_le hm, tryFromHm_of_gt hs, RESPONSE_HEADER]
  · intro a1 a2 a3 a4 a5 a6 a7 a8 bs hm hs hmo
    simp [Response.parse, Response.parse_header, Response.parse_payload,
      Settings.parse, read_u8, read_u32, pbind, Subject.tryFrom,
      tryFromHm_of_le hm, tryFromHm_of_le hs, mode_tryFrom_of_invalid hmo,
      RESPONSE_HEADER]
  · intro a1 a2 a3 a4 a5 a6 a7 a8 a9 bs hm hs hmo hse
    obtain ⟨mo, hmo_eq⟩ := mode_tryFrom_ok_exists hmo
    simp [Response.parse, Response.parse_header, Response.parse_payload,
      Settings.parse, read_u8, read_u32, pbind, Subject.tryFrom,
      tryFromHm_of_le hm, tryFromHm_of_le hs, hmo_eq,
      sens_tryFrom_of_invalid hse, RESPONSE_HEADER]
  · intro a1 a2 a3 a4 a5 a6 a7 a8 a9 a10 bs hm hs hmo hse hd
    obtain ⟨mo, hmo_eq⟩ := mode_tryFrom_ok_exists hmo
    obtain ⟨se, hse_eq⟩ := sens_tryFrom_ok_exists hse
    simp [Response.parse, Response.parse_header, Response.parse_payload,
      Settings.parse, read_u8, read_u32, pbind, Subject.tryFrom,
      tryFromHm_of_le hm, tryFromHm_of_le hs, hmo_eq, hse_eq,
      flags_tryFrom_of_ge hd, RESPONSE_HEADER]
  · intro a1 a2 a3 a4 a5 a6 a7 a8 a9 a10 a11 a12 bs hm hs hmo hse hd hu
    obtain ⟨mo, hmo_eq⟩ := mode_tryFrom_ok_exists hmo
    obtain ⟨se, hse_eq⟩ := sens_tryFrom_ok_exists hse
    simp [Response.parse, Response.parse_header, Response.parse_payload,
      Settings.parse, read_u8, read_u32, pbind, Subject.tryFrom,
      tryFromHm_of_le hm, tryFromHm_of_le hs, hmo_eq, hse_eq,
      flags_tryFrom_of_lt hd, units_tryFrom_of_invalid hu, RESPONSE_HEADER]
  · intro a1 a2 a3 a4 a5 a6 a7 a8 a9 a10 a11 a12 a13 a14 a15 a16 crc f rest
      hm hs hmo hse hd hu hf
    obtain ⟨mo, hmo_eq⟩ := mode_tryFrom_ok_exists hmo
    obtain ⟨se, hse_eq⟩ := sens_tryFrom_ok_exists hse
    obtain ⟨un, hun_eq⟩ := units_tryFrom_ok_exists hu
    rw [Response.parse_settings_frame, tryFromHm_of_le hm,
      tryFromHm_of_le hs, hmo_eq, hse_eq, flags_tryFrom_of_lt hd, hun_eq]
    simp [pbind, MESSAGE_FOOTER, hf]
  · intro m sp mo t1 t2 t3 d1 d2 d3 s1 s2 s3 u1 u2 u3 u4 crc x xs hsp hmo
    obtain ⟨mode, hmo_eq⟩ := mode_tryFrom_ok_exists hmo
    rw [Response.parse_state_frame, tryFromHm_of_le hsp, hmo_eq]
    simp [pbind, MESSAGE_FOOTER]
  · intro a1 a2 a3 a4 a5 a6 a7 a8 a9 a10 a11 a12 a13 a14 a15 a16 crc x xs
      hm hs hmo hse hd hu
    obtain ⟨mo, hmo_eq⟩ := mode_tryFrom_ok_exists hmo
    obtain ⟨se, hse_eq⟩ := sens_tryFrom_ok_exists hse
    obtain ⟨un, hun_eq⟩ := units_tryFrom_ok_exists hu
    rw [Response.parse_settings_frame, tryFromHm_of_le hm,
      tryFromHm_of_le hs, hmo_eq, hse_eq, flags_tryFrom_of_lt hd, hun_eq]
    simp [pbind, MESSAGE_FOOTER]
  · intro m sp mo t1 t2 t3 d1 d2 d3 s1 s2 s3 u1 u2 u3 u4 crc crc2 hsp hmo
    obtain ⟨mode, hmo_eq⟩ := mode_tryFrom_ok_exists hmo
    constructor
    · simp only [Response.parse_state_frame]
    · have hp : Response.parse (248 :: 162 :: m :: sp :: mo :: t1 :: t2 ::
          t3 :: d1 :: d2 :: d3 :: s1 :: s2 :: s3 :: u1 :: u2 :: u3 :: u4 ::
          [crc, 253]) = .ok (.state
            { motor_state := MotorState.ofNat m
              speed := ⟨sp⟩
              mode := mode
              run_time := u32FromBeBytes0 t1 t2 t3
              distance := to_distance (u32FromBeBytes0 d1 d2 d3)
              nb_steps := u32FromBeBytes0 s1 s2 s3
              unknown := (u1, u2, u3, u4) }) := by
        rw [Response.parse_state_frame, tryFromHm_of_le hsp, hmo_eq]
        simp [pbind, MESSAGE_FOOTER]
      exact ⟨_, hp⟩
  · intro a1 a2 a3 a4 a5 a6 a7 a8 a9 a10 a11 a12 a13 a14 a15 a16 crc crc2
      hm hs hmo hse hd hu
    obtain ⟨mo, hmo_eq⟩ := mode_tryFrom_ok_exists hmo
    obtain ⟨se, hse_eq⟩ := sens_tryFrom_ok_exists hse
    obtain ⟨un, hun_eq⟩ := units_tryFrom_ok_exists hu
    constructor
    · simp only [Response.parse_settings_frame]
    · have hp : Response.parse (248 :: 166 :: a1 :: a2 :: a3 :: a4 :: a5 ::
          a6 :: a7 :: a8 :: a9 :: a10 :: a11 :: a12 :: a13 :: a14 :: a15 ::
          a16 :: [crc, 253]) = .ok (.settings
            { goal_type := a1
              goal := u32FromBeBytes0 a2 a3 a4
              calibration := a5
              max_speed := ⟨a6⟩
              start_speed := ⟨a7⟩
              start_mode := mo
              sensitivity := se
              display := ⟨a10⟩
              is_locked := a11 ≠ 0
              units := un
              unknown := (a13, a14, a15, a16) }) := by
        rw [Response.parse_settings_frame, tryFromHm_of_le hm,
          tryFromHm_of_le hs, hmo_eq, hse_eq, flags_tryFrom_of_lt hd, hun_eq]
        simp [pbind, MESSAGE_FOOTER]
      exact ⟨_, hp⟩
  · intro a1 a2 a3 a4 a5 a6 a7 a8 a9 a10 a11 a12 a13 a14 a15 a16 crc x xs
    rw [show (248 : Nat) :: 167 :: a1 :: a2 :: a3 :: a4 :: a5 :: a6 :: a7 ::
        a8 :: a9 :: a10 :: a11 :: a12 :: a13 :: a14 :: a15 :: a16 :: crc ::
        253 :: x :: xs = 248 :: 167 :: a1 :: a2 :: a3 :: a4 :: a5 :: a6 ::
        a7 :: a8 :: a9 :: a10 :: a11 :: a12 :: a13 :: a14 :: a15 :: a16 ::
        crc :: 253 :: (x :: xs) from rfl]
    rw [Response.parse_stored_frame]
    simp [MESSAGE_FOOTER]
  · intro a1 a2 a3 a4 a5 a6 a7 a8 a9 a10 a11 a12 a13 a14 a15 a16 crc crc2
    constructor
    · rw [show 248 :: 167 :: a1 :: a2 :: a3 :: a4 :: a5 :: a6 :: a7 :: a8 ::
          a9 :: a10 :: a11 :: a12 :: a13 :: a14 :: a15 :: a16 :: [crc, 253] =
          248 :: 167 :: a1 :: a2 :: a3 :: a4 :: a5 :: a6 :: a7 :: a8 :: a9 ::
          a10 :: a11 :: a12 :: a13 :: a14 :: a15 :: a16 :: crc :: 253 ::
          ([] : List Nat) from rfl,
        show 248 :: 167 :: a1 :: a2 :: a3 :: a4 :: a5 :: a6 :: a7 :: a8 ::
          a9 :: a10 :: a11 :: a12 :: a13 :: a14 :: a15 :: a16 :: [crc2, 253] =
          248 :: 167 :: a1 :: a2 :: a3 :: a4 :: a5 :: a6 :: a7 :: a8 :: a9 ::
          a10 :: a11 :: a12 :: a13 :: a14 :: a15 :: a16 :: crc2 :: 253 ::
          ([] : List Nat) from rfl,
        Response.parse_stored_frame, Response.parse_stored_frame]
    · refine ⟨Response.storedStats
        { current_time := u32FromBeBytes0 a1 a2 a3
          start_time := u32FromBeBytes0 a4 a5 a6
          duration := u32FromBeBytes0 a7 a8 a9
          distance := to_distance (u32FromBeBytes0 a10 a11 a12)
          nb_steps := u32FromBeBytes0 a13 a14 a15
          next_id := if a16 = 0 then none else some a16 }, ?_⟩
      rw [show 248 :: 167 :: a1 :: a2 :: a3 :: a4 :: a5 :: a6 :: a7 :: a8 ::
          a9 :: a10 :: a11 :: a12 :: a13 :: a14 :: a15 :: a16 :: [crc, 253] =
          248 :: 167 :: a1 :: a2 :: a3 :: a4 :: a5 :: a6 :: a7 :: a8 :: a9 ::
          a10 :: a11 :: a12 :: a13 :: a14 :: a15 :: a16 :: crc :: 253 ::
          ([] : List Nat) from rfl,
        Response.parse_stored_frame]
      simp [MESSAGE_FOOTER]
  · intro bs
    cases h : Response.parse bs with
    | ok r => exact Or.inl ⟨r, rfl⟩
    | error e => exact Or.inr ⟨e, rfl⟩

/-- C2 witness: the hypothesis-carrying clauses of `C2_parse_errors` at
concrete inputs, covering header, subject, preemption of framing checks by
payload-value errors in both State and Settings frames, truncation for all
three subjects, footer, trailing-bytes and checksum-indifference for State,
Settings and StoredStats frames. -/
theorem C2_parse_errors_witness :
    Response.parse [0] = .error (.invalidResponseHeader 0) ∧
    Response.parse [248, 5] = .error (.invalidType 5 typeNameSubject) ∧
    Response.parse [248, 162, 7, 100, 1, 2, 3] = .error (.invalidSpeed 100) ∧
    Response.parse [248, 162, 0, 30, 1] = .error .responseTooShort ∧
    Response.parse [248, 166] = .error .responseTooShort ∧
    Response.parse [248, 167, 1, 2, 3] = .error .responseTooShort ∧
    Response.parse [248, 167, 0, 0, 0, 0, 0, 0, 0, 0, 0, 0, 0, 0, 0, 0, 0, 0,
      9, 0] = .error (.invalidResponseFooter 0) ∧
    Response.parse [248, 162, 5, 30, 1, 0, 0, 0, 0, 0, 0, 0, 0, 0, 0, 0, 0, 0,
      9, 7] = .error (.invalidResponseFooter 7) ∧
    Response.parse [248, 162, 0, 30, 3] =
      .error (.invalidType 3 typeNameMode) ∧
    Response.parse [248, 166, 0, 0, 0, 0, 0, 200] =
      .error (.invalidSpeed 200) ∧
    Response.parse [248, 166, 0, 0, 0, 0, 0, 30, 200] =
      .error (.invalidSpeed 200) ∧
    Response.parse [248, 166, 0, 0, 0, 0, 0, 30, 20, 3] =
      .error (.invalidType 3 typeNameMode) ∧
    Response.parse [248, 166, 0, 0, 0, 0, 0, 30, 20, 1, 0] =
      .error (.invalidType 0 typeNameSensitivity) ∧
    Response.parse [248, 166, 0, 0, 0, 0, 0, 30, 20, 1, 2, 40] =
      .error (.invalidType 40 typeNameInfoFlags) ∧
    Response.parse [248, 166, 0, 0, 0, 0, 0, 30, 20, 1, 2, 0, 0, 9] =
      .error (.invalidType 9 typeNameUnits) ∧
    Response.parse [248, 166, 0, 0, 0, 0, 0, 30, 20, 1, 2, 0, 0, 0, 0, 0, 0,
      0, 9, 7] = .error (.invalidResponseFooter 7) ∧
    Response.parse [248, 162, 5, 30, 1, 0, 0, 0, 0, 0, 0, 0, 0, 0, 0, 0, 0, 0,
      9, 253, 1] = .error .bytesAfterFooter ∧
    Response.parse [248, 166, 0, 0, 0, 0, 0, 30, 20, 1, 2, 0, 0, 0, 0, 0, 0,
      0, 9, 253, 1] = .error .bytesAfterFooter ∧
    (Response.parse [248, 162, 5, 30, 1, 0, 0, 0, 0, 0, 0, 0, 0, 0, 0, 0, 0,
        0, 1, 253] =
      Response.parse [248, 162, 5, 30, 1, 0, 0, 0, 0, 0, 0, 0, 0, 0, 0, 0, 0,
        0, 2, 253] ∧
     ∃ r, Response.parse [248, 162, 5, 30, 1, 0, 0, 0, 0, 0, 0, 0, 0, 0, 0,
        0, 0, 0, 1, 253] = .ok r) ∧
    (Response.parse [248, 166, 0, 0, 0, 0, 0, 30, 20, 1, 2, 0, 0, 0, 0, 0, 0,
        0, 1, 253] =
      Response.parse [248, 166, 0, 0, 0, 0, 0, 30, 20, 1, 2, 0, 0, 0, 0, 0, 0,
        0, 2, 253] ∧
     ∃ r, Response.parse [248, 166, 0, 0, 0, 0, 0, 30, 20, 1, 2, 0, 0, 0, 0,
        0, 0, 0, 1, 253] = .ok r) := by
  obtain ⟨c1, c2, c3, c4, c5, c6, c7, c8, c9, c10, c11, c12, c13, c14, c15,
    c16, c17, c18, c19, c20, c21, c22, c23, c24, c25⟩ := C2_parse_errors
  exact ⟨c2 0 [] (by decide),
    c4 5 [] (by decide) (by decide) (by decide),
    c5 7 100 [1, 2, 3] (by decide),
    c6 [0, 30, 1] (by decide) (by intro v hv; simp at hv; omega)
      (by intro v hv; simp at hv; omega),
    c7 [] (by decide) (by intro v hv; simp at hv) (by intro v hv; simp at hv)
      (by intro v hv; simp at hv) (by intro v hv; simp at hv)
      (by intro v hv; simp at hv) (by intro v hv; simp at hv),
    c8 [1, 2, 3] (by decide),
    c9 0 0 0 0 0 0 0 0 0 0 0 0 0 0 0 0 9 0 [] (by decide),
    c10 5 30 1 0 0 0 0 0 0 0 0 0 0 0 0 0 9 7 [] (by decide) (by omega)
      (by decide),
    c11 0 30 3 [] (by decide) (by decide),
    c12 0 0 0 0 0 200 [] (by decide),
    c13 0 0 0 0 0 30 200 [] (by decide) (by decide),
    c14 0 0 0 0 0 30 20 3 [] (by decide) (by decide) (by decide),
    c15 0 0 0 0 0 30 20 1 0 [] (by decide) (by decide) (by decide)
      (by decide),
    c16 0 0 0 0 0 30 20 1 2 40 [] (by decide) (by decide) (by decide)
      (by decide) (by decide),
    c17 0 0 0 0 0 30 20 1 2 0 0 9 [] (by decide) (by decide) (by decide)
      (by decide) (by decide) (by decide),
    c18 0 0 0 0 0 30 20 1 2 0 0 0 0 0 0 0 9 7 [] (by decide) (by decide)
      (by decide) (by decide) (by decide) (by decide) (by decide),
    c19 5 30 1 0 0 0 0 0 0 0 0 0 0 0 0 0 9 1 [] (by decide) (by decide),
    c20 0 0 0 0 0 30 20 1 2 0 0 0 0 0 0 0 9 1 [] (by decide) (by decide)
      (by decide) (by decide) (by decide) (by decide),
    c21 5 30 1 0 0 0 0 0 0 0 0 0 0 0 0 0 1 2 (by decide) (by decide),
    c22 0 0 0 0 0 30 20 1 2 0 0 0 0 0 0 0 1 2 (by decide) (by decide)
      (by decide) (by decide) (by decide) (by decide)⟩

/-- C3: every multi-byte integer field of a decoded response is read as
exactly 3 wire bytes big-endian into the low 24 bits of the result
(`read_u32`), and every decoded distance equals 10 meters times the 3-byte
raw value (`to_distance`, applied at decode time), so in every successfully
decoded response built from bytes the counters are below `2^24`, and every
distance is a multiple of 10 meters and strictly below `10 * 2^24` meters. -/
theorem C3_three_byte_fields :
    (∀ (b1 b2 b3 : Nat) (rest : List Nat),
      read_u32 (b1 :: b2 :: b3 :: rest) = .ok (u32FromBeBytes0 b1 b2 b3, rest)) ∧
    (∀ b1 b2 b3 : Nat, b1 < 256 → b2 < 256 → b3 < 256 →
      u32FromBeBytes0 b1 b2 b3 = b1 * 65536 + b2 * 256 + b3 ∧
      u32FromBeBytes0 b1 b2 b3 < 16777216) ∧
    (∀ d : Nat, d < 16777216 → to_distance d = 10 * d) ∧
    (∀ (bs : List Nat) (r : Response), (∀ b ∈ bs, b < 256) →
      Response.parse bs = .ok r → responseFieldsOk r) ∧
    (∀ (bs : List Nat) (s : State), (∀ b ∈ bs, b < 256) →
      Response.parse bs = .ok (.state s) →
      s.distance % 10 = 0 ∧ s.distance < 167772160) ∧
    (∀ (bs : List Nat) (t : StoredStats), (∀ b ∈ bs, b < 256) →
      Response.parse bs = .ok (.storedStats t) →
      t.distance % 10 = 0 ∧ t.distance < 167772160) := by
  have main : ∀ (bs : List Nat) (r : Response), (∀ b ∈ bs, b < 256) →
      Response.parse bs = .ok r → responseFieldsOk r := by
    intro bs r hb h
    rcases bs with _ | ⟨b, bs⟩
    · rw [Response.parse_nil] at h
      exact absurd h (by simp)
    by_cases hbh : b = 248
    case neg =>
      rw [Response.parse_bad_header hbh] at h
      simp at h
    subst hbh
    rcases bs with _ | ⟨sc, t⟩
    · rw [Response.parse_only_header] at h
      exact absurd h (by simp)
    by_cases h162 : sc = 162
    · subst h162
      by_cases hlen : t.length ≤ 17
      · exact absurd h (Response.parse_state_short_not_ok t hlen r)
      rcases t with _|⟨m,_|⟨sp,_|⟨mo,_|⟨t1,_|⟨t2,_|⟨t3,_|⟨d1,_|⟨d2,_|⟨d3,_|⟨s1,
      _|⟨s2,_|⟨s3,_|⟨u1,_|⟨u2,_|⟨u3,_|⟨u4,_|⟨crc,
      _|⟨f,rest⟩⟩⟩⟩⟩⟩⟩⟩⟩⟩⟩⟩⟩⟩⟩⟩⟩⟩
      all_goals try (exfalso; apply hlen; simp only [List.length_cons, List.length_nil]; omega)
      rw [Response.parse_state_frame] at h
      rcases hsp : Speed.tryFromHmPerHour sp with e | speed
      · rw [hsp] at h
        simp [pbind] at h
      rw [hsp] at h
      simp only [pbind] at h
      rcases hmo : Mode.tryFrom mo with e2 | mode
      · rw [hmo] at h
        simp [pbind] at h
      rw [hmo] at h
      simp only [pbind] at h
      simp only [MESSAGE_FOOTER] at h
      by_cases hf : f = 253
      case neg =>
        rw [if_neg hf] at h
        simp at h
      rw [if_pos hf] at h
      rcases rest with _ | ⟨x, xs⟩
      case pos.cons => simp at h
      simp only [Except.ok.injEq] at h
      subst h
      simp only [responseFieldsOk]
      refine ⟨u32FromBeBytes0_lt (hb t1 (by simp)) (hb t2 (by simp))
          (hb t3 (by simp)),
        u32FromBeBytes0_lt (hb s1 (by simp)) (hb s2 (by simp))
          (hb s3 (by simp)),
        u32FromBeBytes0 d1 d2 d3,
        u32FromBeBytes0_lt (hb d1 (by simp)) (hb d2 (by simp))
          (hb d3 (by simp)), ?_⟩
      exact to_distance_of_lt (u32FromBeBytes0_lt (hb d1 (by simp))
        (hb d2 (by simp)) (hb d3 (by simp)))
    by_cases h166 : sc = 166
    · subst h166
      by_cases hlen : t.length ≤ 17
      · exact absurd h (Response.parse_settings_short_not_ok t hlen r)
      rcases t with _|⟨a1,_|⟨a2,_|⟨a3,_|⟨a4,_|⟨a5,_|⟨a6,_|⟨a7,_|⟨a8,_|⟨a9,_|⟨a10,
      _|⟨a11,_|⟨a12,_|⟨a13,_|⟨a14,_|⟨a15,_|⟨a16,_|⟨crc,
      _|⟨f,rest⟩⟩⟩⟩⟩⟩⟩⟩⟩⟩⟩⟩⟩⟩⟩⟩⟩⟩
      all_goals try (exfalso; apply hlen; simp only [List.length_cons, List.length_nil]; omega)
      rw [Response.parse_settings_frame] at h
      rcases hm : Speed.tryFromHmPerHour a6 with e | mx
      · rw [hm] at h
        simp [pbind] at h
      rw [hm] at h
      simp only [pbind] at h
      rcases hs : Speed.tryFromHmPerHour a7 with e | st
      · rw [hs] at h
        simp [pbind] at h
      rw [hs] at h
      simp only [pbind] at h
      rcases hmo : Mode.tryFrom a8 with e | mo
      · rw [hmo] at h
        simp [pbind] at h
      rw [hmo] at h
      simp only [pbind] at h
      rcases hse : Sensitivity.tryFrom a9 with e | se
      · rw [hse] at h
        simp [pbind] at h
      rw [hse] at h
      simp only [pbind] at h
      rcases hd : InfoFlags.tryFrom a10 with e | dl
      · rw [hd] at h
        simp [pbind] at h
      rw [hd] at h
      simp only [pbind] at h
      rcases hu : Units.tryFrom a12 with e | un
      · rw [hu] at h
        simp [pbind] at h
      rw [hu] at h
      simp only [pbind] at h
      simp only [MESSAGE_FOOTER] at h
      by_cases hf : f = 253
      case neg =>
        rw [if_neg hf] at h
        simp at h
      rw [if_pos hf] at h
      rcases rest with _ | ⟨x, xs⟩
      case pos.cons => simp at h
      simp only [Except.ok.injEq] at h
      subst h
      simp only [responseFieldsOk]
    by_cases h167 : sc = 167
    · subst h167
      by_cases hlen : t.length ≤ 17
      · rw [Response.parse_stored_short t hlen] at h
        simp at h
      rcases t with _|⟨a1,_|⟨a2,_|⟨a3,_|⟨a4,_|⟨a5,_|⟨a6,_|⟨a7,_|⟨a8,_|⟨a9,_|⟨a10,
      _|⟨a11,_|⟨a12,_|⟨a13,_|⟨a14,_|⟨a15,_|⟨a16,_|⟨crc,
      _|⟨f,rest⟩⟩⟩⟩⟩⟩⟩⟩⟩⟩⟩⟩⟩⟩⟩⟩⟩⟩
      all_goals try (exfalso; apply hlen; simp only [List.length_cons, List.length_nil]; omega)
      rw [Response.parse_stored_frame] at h
      simp only [MESSAGE_FOOTER] at h
      by_cases hf : f = 253
      case neg =>
        rw [if_neg hf] at h
        simp at h
      rw [if_pos hf] at h
      rcases rest with _ | ⟨x, xs⟩
      case pos.cons => simp at h
      simp only [Except.ok.injEq] at h
      subst h
      simp only [responseFieldsOk]
      refine ⟨u32FromBeBytes0_lt (hb a1 (by simp)) (hb a2 (by simp))
          (hb a3 (by simp)),
        u32FromBeBytes0_lt (hb a4 (by simp)) (hb a5 (by simp))
          (hb a6 (by simp)),
        u32FromBeBytes0_lt (hb a7 (by simp)) (hb a8 (by simp))
          (hb a9 (by simp)),
        u32FromBeBytes0_lt (hb a13 (by simp)) (hb a14 (by simp))
          (hb a15 (by simp)),
        u32FromBeBytes0 a10 a11 a12,
        u32FromBeBytes0_lt (hb a10 (by simp)) (hb a11 (by simp))
          (hb a12 (by simp)), ?_⟩
      exact to_distance_of_lt (u32FromBeBytes0_lt (hb a10 (by simp))
        (hb a11 (by simp)) (hb a12 (by simp)))
    rw [Response.parse_bad_subject h162 h166 h167] at h
    simp at h
  refine ⟨fun b1 b2 b3 rest => read_u32_cons b1 b2 b3 rest, ?_, ?_, main,
    ?_, ?_⟩
  · intro b1 b2 b3 h1 h2 h3
    exact ⟨rfl, u32FromBeBytes0_lt h1 h2 h3⟩
  · intro d hd
    exact to_distance_of_lt hd
  · intro bs s hb h
    have hm := main bs (.state s) hb h
    simp only [responseFieldsOk] at hm
    obtain ⟨h1, h2, raw, hraw, heq⟩ := hm
    rw [heq]
    omega
  · intro bs t hb h
    have hm := main bs (.storedStats t) hb h
    simp only [responseFieldsOk] at hm
    obtain ⟨h1, h2, h3, h4, raw, hraw, heq⟩ := hm
    rw [heq]
    omega

/-- C3 witness: `C3_three_byte_fields` applied to a concrete well-formed
StoredStats frame whose raw distance is 3 device units. -/
theorem C3_three_byte_fields_witness :
    u32FromBeBytes0 1 2 3 = 66051 ∧ u32FromBeBytes0 1 2 3 < 16777216 ∧
    to_distance 3 = 30 ∧
    responseFieldsOk (Response.storedStats
      { current_time := 0, start_time := 0, duration := 0, distance := 30,
        nb_steps := 0, next_id := none }) := by
  refine ⟨(C3_three_byte_fields.2.1 1 2 3 (by decide) (by decide)
      (by decide)).1, 
    (C3_three_byte_fields.2.1 1 2 3 (by decide) (by decide) (by decide)).2,
    C3_three_byte_fields.2.2.1 3 (by decide), ?_⟩
  exact C3_three_byte_fields.2.2.2.1
    [248, 167, 0, 0, 0, 0, 0, 0, 0, 0, 0, 0, 0, 3, 0, 0, 0, 0, 99, 253]
    (Response.storedStats
      { current_time := 0, start_time := 0, duration := 0, distance := 30,
        nb_steps := 0, next_id := none })
    (by intro b hbb; simp at hbb; omega) (by rfl)

/-- C4: the run tracker moves Idle→Tracking on the first Running snapshot
(recording the wall clock and the snapshot), replaces the retained snapshot on
each further Running snapshot, and on the first non-Running snapshot emits
exactly one completed-run record taken from the last retained snapshot and
then issues exactly one clear-stored-runs command, returning to Idle;
non-Running snapshots while Idle produce nothing.  The two concrete snapshot
sequences of the claim behave as stated. -/
theorem C4_run_tracker :
    (∀ (s : State) (now : Nat), s.motor_state = MotorState.running →
      handle_state_update none s now = (some (s, now), [])) ∧
    (∀ (s : State) (now : Nat), s.motor_state ≠ MotorState.running →
      handle_state_update none s now = (none, [])) ∧
    (∀ (last s : State) (start now : Nat), s.motor_state = MotorState.running →
      handle_state_update (some (last, start)) s now = (some (s, start), [])) ∧
    (∀ (last s : State) (start now : Nat), s.motor_state ≠ MotorState.running →
      handle_state_update (some (last, start)) s now =
        (none,
         [.emitRun { start_time := start, duration := last.run_time,
                     distance := last.distance, nb_steps := last.nb_steps },
          .sendRequest request.clear_stats])) ∧
    run_tracker [(sampleRunning0, 100), (sampleRunning1, 101), (sampleStopped, 102)] =
      [.emitRun { start_time := 100, duration := sampleRunning1.run_time,
                  distance := sampleRunning1.distance,
                  nb_steps := sampleRunning1.nb_steps },
       .sendRequest request.clear_stats] ∧
    run_tracker [(sampleStopped, 100), (sampleStopped, 101)] = [] := by
  refine ⟨?_, ?_, ?_, ?_, by decide, by decide⟩
  · intro s now h
    simp [handle_state_update, h]
  · intro s now h
    simp [handle_state_update, h]
  · intro last s start now h
    simp [handle_state_update, h]
  · intro last s start now h
    simp [handle_state_update, h]

/-- C4 witness: the transition clauses of `C4_run_tracker` at concrete
snapshots. -/
theorem C4_run_tracker_witness :
    handle_state_update none sampleRunning0 100 = (some (sampleRunning0, 100), []) ∧
    handle_state_update none sampleStopped 100 = (none, []) ∧
    handle_state_update (some (sampleRunning0, 100)) sampleRunning1 101 =
      (some (sampleRunning1, 100), []) ∧
    handle_state_update (some (sampleRunning1, 100)) sampleStopped 102 =
      (none,
       [.emitRun { start_time := 100, duration := 300, distance := 100,
                   nb_steps := 50 },
        .sendRequest request.clear_stats]) :=
  ⟨C4_run_tracker.1 sampleRunning0 100 (by decide),
   C4_run_tracker.2.1 sampleStopped 100 (by decide),
   C4_run_tracker.2.2.1 sampleRunning0 sampleRunning1 100 101 (by decide),
   C4_run_tracker.2.2.2.1 sampleRunning1 sampleStopped 100 102 (by decide)⟩

/-- C5: the history walker starts from the fetch-latest request, appends every
StoredStats response in arrival order, skips other response kinds and decode
failures, sends fetch-by-id for each present `next_id`, and on the first
absent `next_id` sends clear-stored-runs and terminates with the accumulated
list; on `next_id` values [7, 3, None] it sends fetch-by-id(7), fetch-by-id(3),
clear-stored-runs and returns the 3 records in arrival order. -/
theorem C5_history_walker :
    (∀ events, (get_stats events).1 =
      request.get.latest_stored_stats :: (get_stats_go events []).1) ∧
    (∀ (s : StoredStats) (id : Nat) rest acc, s.next_id = some id →
      get_stats_go (.decoded (.storedStats s) :: rest) acc =
        (request.get.stored_stats id :: (get_stats_go rest (acc ++ [s])).1,
         (get_stats_go rest (acc ++ [s])).2)) ∧
    (∀ (s : StoredStats) rest acc, s.next_id = none →
      get_stats_go (.decoded (.storedStats s) :: rest) acc =
        ([request.clear_stats], acc ++ [s])) ∧
    (∀ (st : State) rest acc,
      get_stats_go (.decoded (.state st) :: rest) acc = get_stats_go rest acc) ∧
    (∀ (se : Settings) rest acc,
      get_stats_go (.decoded (.settings se) :: rest) acc = get_stats_go rest acc) ∧
    (∀ rest acc, get_stats_go (.malformed :: rest) acc = get_stats_go rest acc) ∧
    get_stats [.decoded (.storedStats sampleStored7),
               .decoded (.storedStats sampleStored3),
               .decoded (.storedStats sampleStoredLast)] =
      ([request.get.latest_stored_stats, request.get.stored_stats 7,
        request.get.stored_stats 3, request.clear_stats],
       [sampleStored7, sampleStored3, sampleStoredLast]) := by
  refine ⟨?_, ?_, ?_, ?_, ?_, ?_, by decide⟩
  · intro events
    simp [get_stats]
  · intro s id rest acc h
    simp [get_stats_go, h]
  · intro s rest acc h
    simp [get_stats_go, h]
  · intro st rest acc
    simp [get_stats_go]
  · intro se rest acc
    simp [get_stats_go]
  · intro rest acc
    simp [get_stats_go]

/-- C5 witness: the hypothesis-carrying step clauses of `C5_history_walker`
at concrete records. -/
theorem C5_history_walker_witness :
    get_stats_go [.decoded (.storedStats sampleStored7)] [] =
      (request.get.stored_stats 7 :: (get_stats_go [] [sampleStored7]).1,
       (get_stats_go [] [sampleStored7]).2) ∧
    get_stats_go [.decoded (.storedStats sampleStoredLast)] [sampleStored7] =
      ([request.clear_stats], [sampleStored7, sampleStoredLast]) :=
  ⟨C5_history_walker.2.1 sampleStored7 7 [] [] rfl,
   C5_history_walker.2.2.1 sampleStoredLast [] [sampleStored7] rfl⟩

/-- C6 counterexample: after the walker's last sent fetch was
fetch-by-id(7), a receive timeout makes it send fetch-latest (the id-255
sentinel) again — not the last fetch request it sent — refuting the claim
that on timeout the walker re-issues the last fetch and never restarts from
the sentinel. -/
theorem C6_timeout_counterexample :
    (fetch_stats [.received (.storedStats sampleStored7), .timeout]).1 =
      [request.get.latest_stored_stats, request.get.stored_stats 7,
       request.get.latest_stored_stats] ∧
    request.get.latest_stored_stats ≠ request.get.stored_stats 7 := by
  decide

/-- C6 (amended): on every receive timeout the walker re-issues the
fetch-latest (id 255) request and continues waiting, and the number of
consecutive timeout retries is unbounded: for every n, a script of n
consecutive timeouts followed by a terminal stored-run response is retried n
times (one fetch-latest per timeout) and the walk still completes normally. -/
theorem C6_timeout_retry_behavior :
    (∀ rest, fetch_stats_go (.timeout :: rest) =
      (request.get.latest_stored_stats :: (fetch_stats_go rest).1,
       (fetch_stats_go rest).2)) ∧
    (∀ n : Nat,
      fetch_stats (List.replicate n .timeout ++
          [.received (.storedStats sampleStoredLast)]) =
        (request.get.latest_stored_stats ::
          (List.replicate n request.get.latest_stored_stats ++
            [request.clear_stats]),
         some (.ok ()))) := by
  constructor
  · intro rest
    simp [fetch_stats_go]
  · intro n
    have go : ∀ m : Nat,
        fetch_stats_go (List.replicate m .timeout ++
            [.received (.storedStats sampleStoredLast)]) =
          (List.replicate m request.get.latest_stored_stats ++
            [request.clear_stats], some (.ok ())) := by
      intro m
      induction m with
      | zero => decide
      | succ k ih => simp [List.replicate_succ, fetch_stats_go, ih]
    simp [fetch_stats, go n]

/-- C7 counterexample: a discovery collaborator that reports not-found on
each of the first 4 attempts and then succeeds.  Per the claim (3 extra
attempts after the first, 4 total) the not-found error would be surfaced
after the 4 failed attempts, but `connect_with_retry` makes a 5th call and
returns the successful channel. -/
theorem C7_counterexample :
    connectNotFoundThen 4 (.ok 0) 0 = .error .noWalkingPadFound ∧
    connectNotFoundThen 4 (.ok 0) 1 = .error .noWalkingPadFound ∧
    connectNotFoundThen 4 (.ok 0) 2 = .error .noWalkingPadFound ∧
    connectNotFoundThen 4 (.ok 0) 3 = .error .noWalkingPadFound ∧
    connect_with_retry (connectNotFoundThen 4 (.ok 0)) = .ok 0 := by
  refine ⟨rfl, rfl, rfl, rfl, ?_⟩
  simp [connect_with_retry, connect_with_retry_go, connectNotFoundThen]

/-- C7 (amended): establishment retries the discovery-and-connect call only
on the not-found result, up to 4 extra attempts after the first (5 total
calls); if the first k ≤ 4 attempts report not-found and attempt k returns
anything else (success or another error), that result is surfaced
immediately; if all 5 attempts report not-found, the not-found error is
surfaced. -/
theorem C7_retry_policy :
    (∀ (connect : Nat → ConnectResult) (k : Nat), k ≤ 4 →
      (∀ i, i < k → connect i = .error .noWalkingPadFound) →
      connect k ≠ .error .noWalkingPadFound →
      connect_with_retry connect = connect k) ∧
    (∀ connect : Nat → ConnectResult,
      (∀ i, i < 5 → connect i = .error .noWalkingPadFound) →
      connect_with_retry connect = .error .noWalkingPadFound) := by
  have step : ∀ (connect : Nat → ConnectResult) (a r : Nat),
      connect_with_retry_go connect a r =
        match connect a with
        | .error .noWalkingPadFound =>
          if r > 3 then connect a
          else connect_with_retry_go connect (a + 1) (r + 1)
        | _ => connect a := by
    intro connect a r
    rw [connect_with_retry_go]
    cases connect a with
    | ok v => rfl
    | error e => cases e <;> simp
  constructor
  · intro connect k hk hpre hk2
    have go : ∀ m n, n + m = k →
        (∀ i, n ≤ i → i < k → connect i = .error .noWalkingPadFound) →
        connect_with_retry_go connect n n = connect k := by
      intro m
      induction m with
      | zero =>
        intro n hn _
        have hnk : n = k := by omega
        subst hnk
        rw [step]
        cases hc : connect n with
        | ok v => simp
        | error e => cases e <;> simp_all
      | succ j ih =>
        intro n hn hall
        have hnf : connect n = .error .noWalkingPadFound := hall n le_rfl (by omega)
        rw [step, hnf]
        have hle : ¬ n > 3 := by omega
        simp only [hle, if_false]
        exact ih (n + 1) (by omega) (fun i h1 h2 => hall i (by omega) h2)
    exact go k 0 (by omega) (fun i _ h2 => hpre i h2)
  · intro connect hall
    have go : ∀ m n, n + m = 4 →
        connect_with_retry_go connect n n = .error .noWalkingPadFound := by
      intro m
      induction m with
      | zero =>
        intro n hn
        have hnk : n = 4 := by omega
        subst hnk
        rw [step, hall 4 (by omega)]
        simp
      | succ j ih =>
        intro n hn
        rw [step, hall n (by omega)]
        have hle : ¬ n > 3 := by omega
        simp only [hle, if_false]
        exact ih (n + 1) (by omega)
    exact go 4 0 (by omega)

/-- C7 witness: `C7_retry_policy` at a collaborator that succeeds on the
first attempt. -/
theorem C7_retry_policy_witness :
    connect_with_retry (fun _ => .ok 3) = .ok 3 :=
  C7_retry_policy.1 (fun _ => .ok 3) 0 (by omega) (fun i h => absurd h (by omega))
    (by decide)

/-- C8: evaluation of the km/h constructors at the failing input v = 26.
`try_from_km_per_hour` computes `value * 10` in `u8`; for v = 26 this
overflows and (in release builds) wraps to 4, so the out-of-range speed
26 km/h is accepted as `Ok(Speed(4 hm/h))` instead of being rejected (in
debug builds the multiplication panics).  For comparison, v = 7 (no
overflow) is correctly rejected. -/
theorem C8_km_constructor :
    Speed.tryFromKmPerHour 26 = .ok ⟨4⟩ ∧
    Speed.fromKmPerHour 26 = ⟨4⟩ ∧
    26 * 10 % 256 = 4 ∧
    Speed.tryFromKmPerHour 7 = .error (.invalidSpeed 70) := by
  decide

/-- C9: evaluation of Speed addition at the failing operands.  `a + b` for a
raw `u8` count computes `a.inner + b` in `u8` before clamping; for
`Speed(10) + 246` the sum 256 wraps to 0 (release builds; debug builds
panic), so the result is `Speed(0)` rather than the claimed
`min(10 + 246, 60) = 60`.  The claim's own examples with `Speed` operands,
and saturating subtraction, do hold. -/
theorem C9_addition_wraps :
    Speed.addU8 ⟨10⟩ 246 = ⟨0⟩ ∧
    Speed.addU8 ⟨10⟩ 246 ≠ ⟨60⟩ ∧
    Speed.addSpeed ⟨10⟩ ⟨55⟩ = ⟨60⟩ ∧
    Speed.subSpeed ⟨10⟩ ⟨55⟩ = ⟨0⟩ ∧
    Speed.subSpeed ⟨55⟩ ⟨10⟩ = ⟨45⟩ := by
  decide

/-- C10: a correctly framed State or Settings notification (valid header,
footer and exact length) is still rejected as a whole when its speed byte
exceeds 60 (`InvalidSpeed`) or its mode, sensitivity, display-flags or units
byte is not a recognized code (`InvalidType`), while the motor-state byte is
accepted for every value through the `Unknown` catch-all. -/
theorem C10_payload_validation :
    (∀ m sp mo t1 t2 t3 d1 d2 d3 s1 s2 s3 u1 u2 u3 u4 crc : Nat, 60 < sp →
      Response.parse (248 :: 162 :: m :: sp :: mo :: t1 :: t2 :: t3 :: d1 ::
          d2 :: d3 :: s1 :: s2 :: s3 :: u1 :: u2 :: u3 :: u4 :: [crc, 253]) =
        .error (.invalidSpeed sp)) ∧
    (∀ m sp mo t1 t2 t3 d1 d2 d3 s1 s2 s3 u1 u2 u3 u4 crc : Nat, sp ≤ 60 →
      ¬(mo = 0 ∨ mo = 1 ∨ mo = 2 ∨ mo = 4) →
      Response.parse (248 :: 162 :: m :: sp :: mo :: t1 :: t2 :: t3 :: d1 ::
          d2 :: d3 :: s1 :: s2 :: s3 :: u1 :: u2 :: u3 :: u4 :: [crc, 253]) =
        .error (.invalidType mo typeNameMode)) ∧
    (∀ m sp mo t1 t2 t3 d1 d2 d3 s1 s2 s3 u1 u2 u3 u4 crc : Nat, sp ≤ 60 →
      (mo = 0 ∨ mo = 1 ∨ mo = 2 ∨ mo = 4) →
      ∃ st : State,
        Response.parse (248 :: 162 :: m :: sp :: mo :: t1 :: t2 :: t3 :: d1 ::
            d2 :: d3 :: s1 :: s2 :: s3 :: u1 :: u2 :: u3 :: u4 ::
            [crc, 253]) = .ok (.state st) ∧
        st.motor_state = MotorState.ofNat m) ∧
    (∀ v : Nat, v ≠ 0 → v ≠ 1 → v ≠ 9 → MotorState.ofNat v = .unknown v) ∧
    (∀ a1 a2 a3 a4 a5 a6 a7 a8 a9 a10 a11 a12 a13 a14 a15 a16 crc : Nat,
      60 < a6 →
      Response.parse (248 :: 166 :: a1 :: a2 :: a3 :: a4 :: a5 :: a6 :: a7 ::
          a8 :: a9 :: a10 :: a11 :: a12 :: a13 :: a14 :: a15 :: a16 ::
          [crc, 253]) = .error (.invalidSpeed a6)) ∧
    (∀ a1 a2 a3 a4 a5 a6 a7 a8 a9 a10 a11 a12 a13 a14 a15 a16 crc : Nat,
      a6 ≤ 60 → 60 < a7 →
      Response.parse (248 :: 166 :: a1 :: a2 :: a3 :: a4 :: a5 :: a6 :: a7 ::
          a8 :: a9 :: a10 :: a11 :: a12 :: a13 :: a14 :: a15 :: a16 ::
          [crc, 253]) = .error (.invalidSpeed a7)) ∧
    (∀ a1 a2 a3 a4 a5 a6 a7 a8 a9 a10 a11 a12 a13 a14 a15 a16 crc : Nat,
      a6 ≤ 60 → a7 ≤ 60 → ¬(a8 = 0 ∨ a8 = 1 ∨ a8 = 2 ∨ a8 = 4) →
      Response.parse (248 :: 166 :: a1 :: a2 :: a3 :: a4 :: a5 :: a6 :: a7 ::
          a8 :: a9 :: a10 :: a11 :: a12 :: a13 :: a14 :: a15 :: a16 ::
          [crc, 253]) = .error (.invalidType a8 typeNameMode)) ∧
    (∀ a1 a2 a3 a4 a5 a6 a7 a8 a9 a10 a11 a12 a13 a14 a15 a16 crc : Nat,
      a6 ≤ 60 → a7 ≤ 60 → (a8 = 0 ∨ a8 = 1 ∨ a8 = 2 ∨ a8 = 4) →
      ¬(a9 = 1 ∨ a9 = 2 ∨ a9 = 3) →
      Response.parse (248 :: 166 :: a1 :: a2 :: a3 :: a4 :: a5 :: a6 :: a7 ::
          a8 :: a9 :: a10 :: a11 :: a12 :: a13 :: a14 :: a15 :: a16 ::
          [crc, 253]) = .error (.invalidType a9 typeNameSensitivity)) ∧
    (∀ a1 a2 a3 a4 a5 a6 a7 a8 a9 a10 a11 a12 a13 a14 a15 a16 crc : Nat,
      a6 ≤ 60 → a7 ≤ 60 → (a8 = 0 ∨ a8 = 1 ∨ a8 = 2 ∨ a8 = 4) →
      (a9 = 1 ∨ a9 = 2 ∨ a9 = 3) → ¬ a10 < 32 →
      Response.parse (248 :: 166 :: a1 :: a2 :: a3 :: a4 :: a5 :: a6 :: a7 ::
          a8 :: a9 :: a10 :: a11 :: a12 :: a13 :: a14 :: a15 :: a16 ::
          [crc, 253]) = .error (.invalidType a10 typeNameInfoFlags)) ∧
    (∀ a1 a2 a3 a4 a5 a6 a7 a8 a9 a10 a11 a12 a13 a14 a15 a16 crc : Nat,
      a6 ≤ 60 → a7 ≤ 60 → (a8 = 0 ∨ a8 = 1 ∨ a8 = 2 ∨ a8 = 4) →
      (a9 = 1 ∨ a9 = 2 ∨ a9 = 3) → a10 < 32 → ¬(a12 = 0 ∨ a12 = 1) →
      Response.parse (248 :: 166 :: a1 :: a2 :: a3 :: a4 :: a5 :: a6 :: a7 ::
          a8 :: a9 :: a10 :: a11 :: a12 :: a13 :: a14 :: a15 :: a16 ::
          [crc, 253]) = .error (.invalidType a12 typeNameUnits)) ∧
    (∀ a1 a2 a3 a4 a5 a6 a7 a8 a9 a10 a11 a12 a13 a14 a15 a16 crc : Nat,
      a6 ≤ 60 → a7 ≤ 60 → (a8 = 0 ∨ a8 = 1 ∨ a8 = 2 ∨ a8 = 4) →
      (a9 = 1 ∨ a9 = 2 ∨ a9 = 3) → a10 < 32 → (a12 = 0 ∨ a12 = 1) →
      ∃ st : Settings,
        Response.parse (248 :: 166 :: a1 :: a2 :: a3 :: a4 :: a5 :: a6 ::
            a7 :: a8 :: a9 :: a10 :: a11 :: a12 :: a13 :: a14 :: a15 :: a16 ::
            [crc, 253]) = .ok (.settings st)) := by
  refine ⟨?_, ?_, ?_, ?_, ?_, ?_, ?_, ?_, ?_, ?_, ?_⟩
  · intro m sp mo t1 t2 t3 d1 d2 d3 s1 s2 s3 u1 u2 u3 u4 crc hsp
    rw [Response.parse_state_frame, tryFromHm_of_gt hsp]
    simp [pbind]
  · intro m sp mo t1 t2 t3 d1 d2 d3 s1 s2 s3 u1 u2 u3 u4 crc hsp hmo
    rw [Response.parse_state_frame, tryFromHm_of_le hsp,
      mode_tryFrom_of_invalid hmo]
    simp [pbind]
  · intro m sp mo t1 t2 t3 d1 d2 d3 s1 s2 s3 u1 u2 u3 u4 crc hsp hmo
    obtain ⟨mode, hmo_eq⟩ := mode_tryFrom_ok_exists hmo
    have hp : Response.parse (248 :: 162 :: m :: sp :: mo :: t1 :: t2 :: t3 ::
        d1 :: d2 :: d3 :: s1 :: s2 :: s3 :: u1 :: u2 :: u3 :: u4 ::
        [crc, 253]) = .ok (.state
          { motor_state := MotorState.ofNat m
            speed := ⟨sp⟩
            mode := mode
            run_time := u32FromBeBytes0 t1 t2 t3
            distance := to_distance (u32FromBeBytes0 d1 d2 d3)
            nb_steps := u32FromBeBytes0 s1 s2 s3
            unknown := (u1, u2, u3, u4) }) := by
      rw [Response.parse_state_frame, tryFromHm_of_le hsp, hmo_eq]
      simp [pbind, MESSAGE_FOOTER]
    exact ⟨_, hp, rfl⟩
  · intro v h0 h1 h9
    simp [MotorState.ofNat, h0, h1, h9]
  · intro a1 a2 a3 a4 a5 a6 a7 a8 a9 a10 a11 a12 a13 a14 a15 a16 crc hm
    rw [Response.parse_settings_frame, tryFromHm_of_gt hm]
    simp [pbind]
  · intro a1 a2 a3 a4 a5 a6 a7 a8 a9 a10 a11 a12 a13 a14 a15 a16 crc hm hs
    rw [Response.parse_settings_frame, tryFromHm_of_le hm,
      tryFromHm_of_gt hs]
    simp [pbind]
  · intro a1 a2 a3 a4 a5 a6 a7 a8 a9 a10 a11 a12 a13 a14 a15 a16 crc hm hs hmo
    rw [Response.parse_settings_frame, tryFromHm_of_le hm,
      tryFromHm_of_le hs, mode_tryFrom_of_invalid hmo]
    simp [pbind]
  · intro a1 a2 a3 a4 a5 a6 a7 a8 a9 a10 a11 a12 a13 a14 a15 a16 crc hm hs
      hmo hse
    obtain ⟨mo, hmo_eq⟩ := mode_tryFrom_ok_exists hmo
    rw [Response.parse_settings_frame, tryFromHm_of_le hm,
      tryFromHm_of_le hs, hmo_eq, sens_tryFrom_of_invalid hse]
    simp [pbind]
  · intro a1 a2 a3 a4 a5 a6 a7 a8 a9 a10 a11 a12 a13 a14 a15 a16 crc hm hs
      hmo hse hd
    obtain ⟨mo, hmo_eq⟩ := mode_tryFrom_ok_exists hmo
    obtain ⟨se, hse_eq⟩ := sens_tryFrom_ok_exists hse
    rw [Response.parse_settings_frame, tryFromHm_of_le hm,
      tryFromHm_of_le hs, hmo_eq, hse_eq, flags_tryFrom_of_ge hd]
    simp [pbind]
  · intro a1 a2 a3 a4 a5 a6 a7 a8 a9 a10 a11 a12 a13 a14 a15 a16 crc hm hs
      hmo hse hd hu
    obtain ⟨mo, hmo_eq⟩ := mode_tryFrom_ok_exists hmo
    obtain ⟨se, hse_eq⟩ := sens_tryFrom_ok_exists hse
    rw [Response.parse_settings_frame, tryFromHm_of_le hm,
      tryFromHm_of_le hs, hmo_eq, hse_eq, flags_tryFrom_of_lt hd,
      units_tryFrom_of_invalid hu]
    simp [pbind]
  · intro a1 a2 a3 a4 a5 a6 a7 a8 a9 a10 a11 a12 a13 a14 a15 a16 crc hm hs
      hmo hse hd hu
    obtain ⟨mo, hmo_eq⟩ := mode_tryFrom_ok_exists hmo
    obtain ⟨se, hse_eq⟩ := sens_tryFrom_ok_exists hse
    obtain ⟨un, hun_eq⟩ := units_tryFrom_ok_exists hu
    have hp : Response.parse (248 :: 166 :: a1 :: a2 :: a3 :: a4 :: a5 ::
        a6 :: a7 :: a8 :: a9 :: a10 :: a11 :: a12 :: a13 :: a14 :: a15 ::
        a16 :: [crc, 253]) = .ok (.settings
          { goal_type := a1
            goal := u32FromBeBytes0 a2 a3 a4
            calibration := a5
            max_speed := ⟨a6⟩
            start_speed := ⟨a7⟩
            start_mode := mo
            sensitivity := se
            display := ⟨a10⟩
            is_locked := a11 ≠ 0
            units := un
            unknown := (a13, a14, a15, a16) }) := by
      rw [Response.parse_settings_frame, tryFromHm_of_le hm,
        tryFromHm_of_le hs, hmo_eq, hse_eq, flags_tryFrom_of_lt hd, hun_eq]
      simp [pbind, MESSAGE_FOOTER]
    exact ⟨_, hp⟩

/-- C10 witness: `C10_payload_validation` at concrete frames — a State frame
with speed byte 200 is rejected with `InvalidSpeed`, one with mode byte 3
with `InvalidType`, one with motor byte 77 (unrecognized) is accepted, a
Settings frame with units byte 9 is rejected with `InvalidType`. -/
theorem C10_payload_validation_witness :
    Response.parse [248, 162, 0, 200, 1, 0, 0, 0, 0, 0, 0, 0, 0, 0, 0, 0, 0,
      0, 0, 253] = .error (.invalidSpeed 200) ∧
    Response.parse [248, 162, 0, 30, 3, 0, 0, 0, 0, 0, 0, 0, 0, 0, 0, 0, 0,
      0, 0, 253] = .error (.invalidType 3 typeNameMode) ∧
    (∃ st : State,
      Response.parse [248, 162, 77, 30, 1, 0, 0, 0, 0, 0, 0, 0, 0, 0, 0, 0,
        0, 0, 0, 253] = .ok (.state st) ∧
      st.motor_state = MotorState.ofNat 77) ∧
    MotorState.ofNat 77 = .unknown 77 ∧
    Response.parse [248, 166, 0, 0, 0, 0, 0, 30, 20, 1, 2, 0, 0, 9, 0, 0, 0,
      0, 0, 253] = .error (.invalidType 9 typeNameUnits) :=
  ⟨C10_payload_validation.1 0 200 1 0 0 0 0 0 0 0 0 0 0 0 0 0 0 (by decide),
   C10_payload_validation.2.1 0 30 3 0 0 0 0 0 0 0 0 0 0 0 0 0 0 (by decide)
     (by decide),
   C10_payload_validation.2.2.1 77 30 1 0 0 0 0 0 0 0 0 0 0 0 0 0 0
     (by decide) (by decide),
   C10_payload_validation.2.2.2.1 77 (by decide) (by decide) (by decide),
   C10_payload_validation.2.2.2.2.2.2.2.2.2.1 0 0 0 0 0 30 20 1 2 0 0 9 0 0
     0 0 0 (by decide) (by decide) (by decide) (by decide) (by decide)
     (by decide)⟩

end WalkingPad
